import Mathlib

/-!
Verification of the DPDK wrapper header `nix/pkgs/dpdk-wrapper/src/dpdk_wrapper.h`
of githedgehog/dataplane.

The header is a flat list of non-inlined re-declarations of DPDK primitives
(plus two explicitly 64-bit typed enums re-exporting offload flag constants).
We embed:

* the declaration list itself (names, parameter types, return types),
  transcribed from the header;
* the two offload enums, with the native `RTE_ETH_TX_OFFLOAD_*` and
  `RTE_ETH_RX_OFFLOAD_*` constants modelled from the spec (they are defined
  by the external DPDK library, not by this repository);
* a semantics of the wrapper bodies.  The bodies live in the wrapper's
  implementation file, which is not part of the sources given; following the
  spec, each wrapper forwards its arguments unchanged to exactly one native
  primitive and returns that primitive's result and state effect unchanged.
  The native library itself is kept abstract: an arbitrary function from
  (primitive name, calling thread, arguments, library state) to
  (result, new library state);
* concrete, executable models of the read-only observers (ring and mempool
  queries) and of the six token-bucket meter check functions, modelled from
  the spec's description of those families.
-/

set_option maxHeartbeats 2000000
set_option maxRecDepth 10000

namespace Dpdk

/-- C types as they appear in the wrapper header's declarations. -/
inductive CType where
  /-- the C void type (as a return type, or as a pointee) -/
  | void
  /-- the C bool type -/
  | boolT
  /-- the C char type -/
  | charT
  /-- the C double type -/
  | doubleT
  /-- int8_t -/
  | i8
  /-- int16_t -/
  | i16
  /-- int32_t -/
  | i32
  /-- int64_t -/
  | i64
  /-- uint8_t -/
  | u8
  /-- uint16_t -/
  | u16
  /-- uint32_t -/
  | u32
  /-- uint64_t -/
  | u64
  /-- the C int type -/
  | intT
  /-- the C unsigned int type -/
  | uintT
  /-- size_t -/
  | sizeT
  /-- a named struct, enum or typedef type used by value -/
  | named (s : String)
  /-- a const-qualified type -/
  | constT (t : CType)
  /-- a pointer type -/
  | ptr (t : CType)
deriving DecidableEq, Repr

/-- Pointer to a mutable object of type t. -/
def mp (t : CType) : CType := .ptr t

/-- Pointer to a const object of type t. -/
def cp (t : CType) : CType := .ptr (.constT t)

/-- A named struct/enum/typedef type. -/
def ty (s : String) : CType := .named s

/-- One function declaration of the wrapper header: name, parameter types
(in order), return type. -/
structure FunDecl where
  fname : String
  params : List CType
  ret : CType
deriving DecidableEq, Repr

/-- Shorthand for a pointer to a struct rte_ring. -/
def ringP : CType := mp (ty "rte_ring")

/-- Shorthand for a pointer to a const struct rte_ring. -/
def ringCP : CType := cp (ty "rte_ring")

/-- Shorthand for a pointer to a struct rte_mbuf. -/
def mbufP : CType := mp (ty "rte_mbuf")

/-- Shorthand for a pointer to a const struct rte_mbuf. -/
def mbufCP : CType := cp (ty "rte_mbuf")

/-- Shorthand for a pointer to a struct rte_mempool. -/
def mpoolP : CType := mp (ty "rte_mempool")

/-- Shorthand for the C type void *const * (pointer to const pointer to void). -/
def vcpp : CType := mp (.constT (mp .void))

/-- Shorthand for the C type void ** (pointer to pointer to void). -/
def vpp : CType := mp (mp .void)

/-- Declarations of the header, part 1 (dpdk_wrapper.h lines 235 and 305-370):
rte_errno accessor, atomics, cycle counters, string helpers, lcore and wait
primitives.  Chunk a. -/
def declsPart1a : List FunDecl := [
  ⟨"rte_errno_get", [], .intT⟩,
  ⟨"rte_atomic_thread_fence_w", [ty "rte_memory_order"], .void⟩,
  ⟨"rte_atomic16_cmpset_w", [mp .u16, .u16, .u16], .intT⟩,
  ⟨"rte_atomic16_exchange_w", [mp .u16, .u16], .u16⟩,
  ⟨"rte_atomic16_init_w", [mp (ty "rte_atomic16_t")], .void⟩,
  ⟨"rte_atomic16_read_w", [cp (ty "rte_atomic16_t")], .i16⟩,
  ⟨"rte_atomic16_set_w", [mp (ty "rte_atomic16_t"), .i16], .void⟩,
  ⟨"rte_atomic16_add_w", [mp (ty "rte_atomic16_t"), .i16], .void⟩,
  ⟨"rte_atomic16_sub_w", [mp (ty "rte_atomic16_t"), .i16], .void⟩,
  ⟨"rte_atomic16_inc_w", [mp (ty "rte_atomic16_t")], .void⟩,
  ⟨"rte_atomic16_dec_w", [mp (ty "rte_atomic16_t")], .void⟩,
  ⟨"rte_atomic16_add_return_w", [mp (ty "rte_atomic16_t"), .i16], .i16⟩,
  ⟨"rte_atomic16_sub_return_w", [mp (ty "rte_atomic16_t"), .i16], .i16⟩,
  ⟨"rte_atomic16_inc_and_test_w", [mp (ty "rte_atomic16_t")], .intT⟩,
  ⟨"rte_atomic16_dec_and_test_w", [mp (ty "rte_atomic16_t")], .intT⟩,
  ⟨"rte_atomic16_test_and_set_w", [mp (ty "rte_atomic16_t")], .intT⟩,
  ⟨"rte_atomic16_clear_w", [mp (ty "rte_atomic16_t")], .void⟩,
  ⟨"rte_atomic32_cmpset_w", [mp .u32, .u32, .u32], .intT⟩,
  ⟨"rte_atomic32_exchange_w", [mp .u32, .u32], .u32⟩,
  ⟨"rte_atomic32_init_w", [mp (ty "rte_atomic32_t")], .void⟩,
  ⟨"rte_atomic32_read_w", [cp (ty "rte_atomic32_t")], .i32⟩,
  ⟨"rte_atomic32_set_w", [mp (ty "rte_atomic32_t"), .i32], .void⟩,
  ⟨"rte_atomic32_add_w", [mp (ty "rte_atomic32_t"), .i32], .void⟩]

/-- Chunk b of declsPart1. -/
def declsPart1b : List FunDecl := [
  ⟨"rte_atomic32_sub_w", [mp (ty "rte_atomic32_t"), .i32], .void⟩,
  ⟨"rte_atomic32_inc_w", [mp (ty "rte_atomic32_t")], .void⟩,
  ⟨"rte_atomic32_dec_w", [mp (ty "rte_atomic32_t")], .void⟩,
  ⟨"rte_atomic32_add_return_w", [mp (ty "rte_atomic32_t"), .i32], .i32⟩,
  ⟨"rte_atomic32_sub_return_w", [mp (ty "rte_atomic32_t"), .i32], .i32⟩,
  ⟨"rte_atomic32_inc_and_test_w", [mp (ty "rte_atomic32_t")], .intT⟩,
  ⟨"rte_atomic32_dec_and_test_w", [mp (ty "rte_atomic32_t")], .intT⟩,
  ⟨"rte_atomic32_test_and_set_w", [mp (ty "rte_atomic32_t")], .intT⟩,
  ⟨"rte_atomic32_clear_w", [mp (ty "rte_atomic32_t")], .void⟩,
  ⟨"rte_atomic64_cmpset_w", [mp .u64, .u64, .u64], .intT⟩,
  ⟨"rte_atomic64_exchange_w", [mp .u64, .u64], .u64⟩,
  ⟨"rte_atomic64_init_w", [mp (ty "rte_atomic64_t")], .void⟩,
  ⟨"rte_atomic64_read_w", [mp (ty "rte_atomic64_t")], .i64⟩,
  ⟨"rte_atomic64_set_w", [mp (ty "rte_atomic64_t"), .i64], .void⟩,
  ⟨"rte_atomic64_add_w", [mp (ty "rte_atomic64_t"), .i64], .void⟩,
  ⟨"rte_atomic64_sub_w", [mp (ty "rte_atomic64_t"), .i64], .void⟩,
  ⟨"rte_atomic64_inc_w", [mp (ty "rte_atomic64_t")], .void⟩,
  ⟨"rte_atomic64_dec_w", [mp (ty "rte_atomic64_t")], .void⟩,
  ⟨"rte_atomic64_add_return_w", [mp (ty "rte_atomic64_t"), .i64], .i64⟩,
  ⟨"rte_atomic64_sub_return_w", [mp (ty "rte_atomic64_t"), .i64], .i64⟩,
  ⟨"rte_atomic64_inc_and_test_w", [mp (ty "rte_atomic64_t")], .intT⟩,
  ⟨"rte_atomic64_dec_and_test_w", [mp (ty "rte_atomic64_t")], .intT⟩,
  ⟨"rte_atomic64_test_and_set_w", [mp (ty "rte_atomic64_t")], .intT⟩]

/-- Chunk c of declsPart1. -/
def declsPart1c : List FunDecl := [
  ⟨"rte_atomic64_clear_w", [mp (ty "rte_atomic64_t")], .void⟩,
  ⟨"rte_smp_mb_w", [], .void⟩,
  ⟨"rte_get_tsc_cycles_w", [], .u64⟩,
  ⟨"rte_get_timer_cycles_w", [], .u64⟩,
  ⟨"rte_get_timer_hz_w", [], .u64⟩,
  ⟨"rte_delay_ms_w", [.uintT], .void⟩,
  ⟨"rte_rdtsc_w", [], .u64⟩,
  ⟨"rte_rdtsc_precise_w", [], .u64⟩,
  ⟨"rte_strlcpy_w", [mp .charT, cp .charT, .sizeT], .sizeT⟩,
  ⟨"rte_strlcat_w", [mp .charT, cp .charT, .sizeT], .sizeT⟩,
  ⟨"rte_str_skip_leading_spaces_w", [cp .charT], cp .charT⟩,
  ⟨"rte_uuid_copy_w", [ty "rte_uuid_t", .constT (ty "rte_uuid_t")], .void⟩,
  ⟨"rte_gettid_w", [], .intT⟩,
  ⟨"rte_lcore_id_w", [], .uintT⟩,
  ⟨"rte_pause_w", [], .void⟩,
  ⟨"rte_wait_until_equal_16_w", [mp .u16, .u16, ty "rte_memory_order"], .void⟩,
  ⟨"rte_wait_until_equal_32_w", [mp .u32, .u32, ty "rte_memory_order"], .void⟩,
  ⟨"rte_wait_until_equal_64_w", [mp .u64, .u64, ty "rte_memory_order"], .void⟩]

/-- All entries of declsPart1, in source order. -/
def declsPart1 : List FunDecl := declsPart1a ++ declsPart1b ++ declsPart1c

/-- Declarations of the header, part 2 (dpdk_wrapper.h lines 371-429):
spinlocks, transactional-memory helpers, relaxed bit operations, bit-scan
helpers and rwlocks.  Chunk a. -/
def declsPart2a : List FunDecl := [
  ⟨"rte_spinlock_init_w", [mp (ty "rte_spinlock_t")], .void⟩,
  ⟨"rte_spinlock_lock_w", [mp (ty "rte_spinlock_t")], .void⟩,
  ⟨"rte_spinlock_unlock_w", [mp (ty "rte_spinlock_t")], .void⟩,
  ⟨"rte_spinlock_trylock_w", [mp (ty "rte_spinlock_t")], .intT⟩,
  ⟨"rte_spinlock_is_locked_w", [mp (ty "rte_spinlock_t")], .intT⟩,
  ⟨"rte_tm_supported_w", [], .intT⟩,
  ⟨"rte_spinlock_lock_tm_w", [mp (ty "rte_spinlock_t")], .void⟩,
  ⟨"rte_spinlock_unlock_tm_w", [mp (ty "rte_spinlock_t")], .void⟩,
  ⟨"rte_spinlock_trylock_tm_w", [mp (ty "rte_spinlock_t")], .intT⟩,
  ⟨"rte_spinlock_recursive_init_w", [mp (ty "rte_spinlock_recursive_t")], .void⟩,
  ⟨"rte_spinlock_recursive_lock_w", [mp (ty "rte_spinlock_recursive_t")], .void⟩,
  ⟨"rte_spinlock_recursive_unlock_w", [mp (ty "rte_spinlock_recursive_t")], .void⟩,
  ⟨"rte_spinlock_recursive_trylock_w", [mp (ty "rte_spinlock_recursive_t")], .intT⟩,
  ⟨"rte_spinlock_recursive_lock_tm_w", [mp (ty "rte_spinlock_recursive_t")], .void⟩,
  ⟨"rte_spinlock_recursive_unlock_tm_w", [mp (ty "rte_spinlock_recursive_t")], .void⟩,
  ⟨"rte_spinlock_recursive_trylock_tm_w", [mp (ty "rte_spinlock_recursive_t")], .intT⟩,
  ⟨"rte_bit_relaxed_get32_w", [.uintT, mp .u32], .u32⟩,
  ⟨"rte_bit_relaxed_set32_w", [.uintT, mp .u32], .void⟩,
  ⟨"rte_bit_relaxed_clear32_w", [.uintT, mp .u32], .void⟩,
  ⟨"rte_bit_relaxed_test_and_set32_w", [.uintT, mp .u32], .u32⟩,
  ⟨"rte_bit_relaxed_test_and_clear32_w", [.uintT, mp .u32], .u32⟩,
  ⟨"rte_bit_relaxed_get64_w", [.uintT, mp .u64], .u64⟩,
  ⟨"rte_bit_relaxed_set64_w", [.uintT, mp .u64], .void⟩]

/-- Chunk b of declsPart2. -/
def declsPart2b : List FunDecl := [
  ⟨"rte_bit_relaxed_clear64_w", [.uintT, mp .u64], .void⟩,
  ⟨"rte_bit_relaxed_test_and_set64_w", [.uintT, mp .u64], .u64⟩,
  ⟨"rte_bit_relaxed_test_and_clear64_w", [.uintT, mp .u64], .u64⟩,
  ⟨"rte_clz32_w", [.u32], .uintT⟩,
  ⟨"rte_clz64_w", [.u64], .uintT⟩,
  ⟨"rte_ctz32_w", [.u32], .uintT⟩,
  ⟨"rte_ctz64_w", [.u64], .uintT⟩,
  ⟨"rte_popcount32_w", [.u32], .uintT⟩,
  ⟨"rte_popcount64_w", [.u64], .uintT⟩,
  ⟨"rte_combine32ms1b_w", [.u32], .u32⟩,
  ⟨"rte_combine64ms1b_w", [.u64], .u64⟩,
  ⟨"rte_bsf32_w", [.u32], .u32⟩,
  ⟨"rte_bsf32_safe_w", [.u32, mp .u32], .intT⟩,
  ⟨"rte_bsf64_w", [.u64], .u32⟩,
  ⟨"rte_bsf64_safe_w", [.u64, mp .u32], .intT⟩,
  ⟨"rte_fls_u32_w", [.u32], .u32⟩,
  ⟨"rte_fls_u64_w", [.u64], .u32⟩,
  ⟨"rte_is_power_of_2_w", [.u32], .intT⟩,
  ⟨"rte_align32pow2_w", [.u32], .u32⟩,
  ⟨"rte_align32prevpow2_w", [.u32], .u32⟩,
  ⟨"rte_align64pow2_w", [.u64], .u64⟩,
  ⟨"rte_align64prevpow2_w", [.u64], .u64⟩,
  ⟨"rte_log2_u32_w", [.u32], .u32⟩]

/-- Chunk c of declsPart2. -/
def declsPart2c : List FunDecl := [
  ⟨"rte_log2_u64_w", [.u64], .u32⟩,
  ⟨"rte_rwlock_init_w", [mp (ty "rte_rwlock_t")], .void⟩,
  ⟨"rte_rwlock_read_lock_w", [mp (ty "rte_rwlock_t")], .void⟩,
  ⟨"rte_rwlock_read_trylock_w", [mp (ty "rte_rwlock_t")], .intT⟩,
  ⟨"rte_rwlock_read_unlock_w", [mp (ty "rte_rwlock_t")], .void⟩,
  ⟨"rte_rwlock_write_trylock_w", [mp (ty "rte_rwlock_t")], .intT⟩,
  ⟨"rte_rwlock_write_lock_w", [mp (ty "rte_rwlock_t")], .void⟩,
  ⟨"rte_rwlock_write_unlock_w", [mp (ty "rte_rwlock_t")], .void⟩,
  ⟨"rte_rwlock_write_is_locked_w", [mp (ty "rte_rwlock_t")], .intT⟩,
  ⟨"rte_rwlock_read_lock_tm_w", [mp (ty "rte_rwlock_t")], .void⟩,
  ⟨"rte_rwlock_read_unlock_tm_w", [mp (ty "rte_rwlock_t")], .void⟩,
  ⟨"rte_rwlock_write_lock_tm_w", [mp (ty "rte_rwlock_t")], .void⟩,
  ⟨"rte_rwlock_write_unlock_tm_w", [mp (ty "rte_rwlock_t")], .void⟩]

/-- All entries of declsPart2, in source order. -/
def declsPart2 : List FunDecl := declsPart2a ++ declsPart2b ++ declsPart2c

/-- Declarations of the header, part 3 (dpdk_wrapper.h lines 430-679): ring
operations in all producer/consumer synchronization modes, including HTS/RTS
variants, start/finish (peek) and zero-copy variants, and the ring
observers.  Chunk a. -/
def declsPart3a : List FunDecl := [
  ⟨"rte_ring_mp_enqueue_bulk_elem_w", [ringP, cp .void, .uintT, .uintT, mp .uintT], .uintT⟩,
  ⟨"rte_ring_sp_enqueue_bulk_elem_w", [ringP, cp .void, .uintT, .uintT, mp .uintT], .uintT⟩,
  ⟨"rte_ring_mp_hts_enqueue_bulk_elem_w", [ringP, cp .void, .uintT, .uintT, mp .uintT], .uintT⟩,
  ⟨"rte_ring_mc_hts_dequeue_bulk_elem_w", [ringP, mp .void, .uintT, .uintT, mp .uintT], .uintT⟩,
  ⟨"rte_ring_mp_hts_enqueue_burst_elem_w", [ringP, cp .void, .uintT, .uintT, mp .uintT], .uintT⟩,
  ⟨"rte_ring_mc_hts_dequeue_burst_elem_w", [ringP, mp .void, .uintT, .uintT, mp .uintT], .uintT⟩,
  ⟨"rte_ring_mp_hts_enqueue_bulk_w", [ringP, vcpp, .uintT, mp .uintT], .uintT⟩,
  ⟨"rte_ring_mc_hts_dequeue_bulk_w", [ringP, vpp, .uintT, mp .uintT], .uintT⟩,
  ⟨"rte_ring_mp_hts_enqueue_burst_w", [ringP, vcpp, .uintT, mp .uintT], .uintT⟩,
  ⟨"rte_ring_mc_hts_dequeue_burst_w", [ringP, vpp, .uintT, mp .uintT], .uintT⟩,
  ⟨"rte_ring_mp_rts_enqueue_bulk_elem_w", [ringP, cp .void, .uintT, .uintT, mp .uintT], .uintT⟩,
  ⟨"rte_ring_mc_rts_dequeue_bulk_elem_w", [ringP, mp .void, .uintT, .uintT, mp .uintT], .uintT⟩,
  ⟨"rte_ring_mp_rts_enqueue_burst_elem_w", [ringP, cp .void, .uintT, .uintT, mp .uintT], .uintT⟩,
  ⟨"rte_ring_mc_rts_dequeue_burst_elem_w", [ringP, mp .void, .uintT, .uintT, mp .uintT], .uintT⟩,
  ⟨"rte_ring_mp_rts_enqueue_bulk_w", [ringP, vcpp, .uintT, mp .uintT], .uintT⟩,
  ⟨"rte_ring_mc_rts_dequeue_bulk_w", [ringP, vpp, .uintT, mp .uintT], .uintT⟩,
  ⟨"rte_ring_mp_rts_enqueue_burst_w", [ringP, vcpp, .uintT, mp .uintT], .uintT⟩,
  ⟨"rte_ring_mc_rts_dequeue_burst_w", [ringP, vpp, .uintT, mp .uintT], .uintT⟩,
  ⟨"rte_ring_get_prod_htd_max_w", [ringCP], .u32⟩,
  ⟨"rte_ring_set_prod_htd_max_w", [ringP, .u32], .intT⟩,
  ⟨"rte_ring_get_cons_htd_max_w", [ringCP], .u32⟩,
  ⟨"rte_ring_set_cons_htd_max_w", [ringP, .u32], .intT⟩,
  ⟨"rte_ring_enqueue_bulk_elem_w", [ringP, cp .void, .uintT, .uintT, mp .uintT], .uintT⟩]

/-- Chunk b of declsPart3. -/
def declsPart3b : List FunDecl := [
  ⟨"rte_ring_mp_enqueue_elem_w", [ringP, mp .void, .uintT], .intT⟩,
  ⟨"rte_ring_sp_enqueue_elem_w", [ringP, mp .void, .uintT], .intT⟩,
  ⟨"rte_ring_enqueue_elem_w", [ringP, mp .void, .uintT], .intT⟩,
  ⟨"rte_ring_mc_dequeue_bulk_elem_w", [ringP, mp .void, .uintT, .uintT, mp .uintT], .uintT⟩,
  ⟨"rte_ring_sc_dequeue_bulk_elem_w", [ringP, mp .void, .uintT, .uintT, mp .uintT], .uintT⟩,
  ⟨"rte_ring_dequeue_bulk_elem_w", [ringP, mp .void, .uintT, .uintT, mp .uintT], .uintT⟩,
  ⟨"rte_ring_mc_dequeue_elem_w", [ringP, mp .void, .uintT], .intT⟩,
  ⟨"rte_ring_sc_dequeue_elem_w", [ringP, mp .void, .uintT], .intT⟩,
  ⟨"rte_ring_dequeue_elem_w", [ringP, mp .void, .uintT], .intT⟩,
  ⟨"rte_ring_mp_enqueue_burst_elem_w", [ringP, cp .void, .uintT, .uintT, mp .uintT], .uintT⟩,
  ⟨"rte_ring_sp_enqueue_burst_elem_w", [ringP, cp .void, .uintT, .uintT, mp .uintT], .uintT⟩,
  ⟨"rte_ring_enqueue_burst_elem_w", [ringP, cp .void, .uintT, .uintT, mp .uintT], .uintT⟩,
  ⟨"rte_ring_mc_dequeue_burst_elem_w", [ringP, mp .void, .uintT, .uintT, mp .uintT], .uintT⟩,
  ⟨"rte_ring_sc_dequeue_burst_elem_w", [ringP, mp .void, .uintT, .uintT, mp .uintT], .uintT⟩,
  ⟨"rte_ring_dequeue_burst_elem_w", [ringP, mp .void, .uintT, .uintT, mp .uintT], .uintT⟩,
  ⟨"rte_ring_enqueue_bulk_elem_start_w", [ringP, .uintT, mp .uintT], .uintT⟩,
  ⟨"rte_ring_enqueue_bulk_start_w", [ringP, .uintT, mp .uintT], .uintT⟩,
  ⟨"rte_ring_enqueue_burst_elem_start_w", [ringP, .uintT, mp .uintT], .uintT⟩,
  ⟨"rte_ring_enqueue_burst_start_w", [ringP, .uintT, mp .uintT], .uintT⟩,
  ⟨"rte_ring_enqueue_elem_finish_w", [ringP, cp .void, .uintT, .uintT], .void⟩,
  ⟨"rte_ring_enqueue_finish_w", [ringP, vcpp, .uintT], .void⟩,
  ⟨"rte_ring_dequeue_bulk_elem_start_w", [ringP, mp .void, .uintT, .uintT, mp .uintT], .uintT⟩,
  ⟨"rte_ring_dequeue_bulk_start_w", [ringP, vpp, .uintT, mp .uintT], .uintT⟩]

/-- Chunk c of declsPart3. -/
def declsPart3c : List FunDecl := [
  ⟨"rte_ring_dequeue_burst_elem_start_w", [ringP, mp .void, .uintT, .uintT, mp .uintT], .uintT⟩,
  ⟨"rte_ring_dequeue_burst_start_w", [ringP, vpp, .uintT, mp .uintT], .uintT⟩,
  ⟨"rte_ring_dequeue_elem_finish_w", [ringP, .uintT], .void⟩,
  ⟨"rte_ring_dequeue_finish_w", [ringP, .uintT], .void⟩,
  ⟨"rte_ring_enqueue_zc_bulk_elem_start_w", [ringP, .uintT, .uintT, mp (ty "rte_ring_zc_data"), mp .uintT], .uintT⟩,
  ⟨"rte_ring_enqueue_zc_bulk_start_w", [ringP, .uintT, mp (ty "rte_ring_zc_data"), mp .uintT], .uintT⟩,
  ⟨"rte_ring_enqueue_zc_burst_elem_start_w", [ringP, .uintT, .uintT, mp (ty "rte_ring_zc_data"), mp .uintT], .uintT⟩,
  ⟨"rte_ring_enqueue_zc_burst_start_w", [ringP, .uintT, mp (ty "rte_ring_zc_data"), mp .uintT], .uintT⟩,
  ⟨"rte_ring_enqueue_zc_elem_finish_w", [ringP, .uintT], .void⟩,
  ⟨"rte_ring_enqueue_zc_finish_w", [ringP, .uintT], .void⟩,
  ⟨"rte_ring_dequeue_zc_bulk_elem_start_w", [ringP, .uintT, .uintT, mp (ty "rte_ring_zc_data"), mp .uintT], .uintT⟩,
  ⟨"rte_ring_dequeue_zc_bulk_start_w", [ringP, .uintT, mp (ty "rte_ring_zc_data"), mp .uintT], .uintT⟩,
  ⟨"rte_ring_dequeue_zc_burst_elem_start_w", [ringP, .uintT, .uintT, mp (ty "rte_ring_zc_data"), mp .uintT], .uintT⟩,
  ⟨"rte_ring_dequeue_zc_burst_start_w", [ringP, .uintT, mp (ty "rte_ring_zc_data"), mp .uintT], .uintT⟩,
  ⟨"rte_ring_dequeue_zc_elem_finish_w", [ringP, .uintT], .void⟩,
  ⟨"rte_ring_dequeue_zc_finish_w", [ringP, .uintT], .void⟩,
  ⟨"rte_ring_mp_enqueue_bulk_w", [ringP, vcpp, .uintT, mp .uintT], .uintT⟩,
  ⟨"rte_ring_sp_enqueue_bulk_w", [ringP, vcpp, .uintT, mp .uintT], .uintT⟩,
  ⟨"rte_ring_enqueue_bulk_w", [ringP, vcpp, .uintT, mp .uintT], .uintT⟩,
  ⟨"rte_ring_mp_enqueue_w", [ringP, mp .void], .intT⟩,
  ⟨"rte_ring_sp_enqueue_w", [ringP, mp .void], .intT⟩,
  ⟨"rte_ring_enqueue_w", [ringP, mp .void], .intT⟩,
  ⟨"rte_ring_mc_dequeue_bulk_w", [ringP, vpp, .uintT, mp .uintT], .uintT⟩]

/-- Chunk d of declsPart3. -/
def declsPart3d : List FunDecl := [
  ⟨"rte_ring_sc_dequeue_bulk_w", [ringP, vpp, .uintT, mp .uintT], .uintT⟩,
  ⟨"rte_ring_dequeue_bulk_w", [ringP, vpp, .uintT, mp .uintT], .uintT⟩,
  ⟨"rte_ring_mc_dequeue_w", [ringP, vpp], .intT⟩,
  ⟨"rte_ring_sc_dequeue_w", [ringP, vpp], .intT⟩,
  ⟨"rte_ring_dequeue_w", [ringP, vpp], .intT⟩,
  ⟨"rte_ring_count_w", [ringCP], .uintT⟩,
  ⟨"rte_ring_free_count_w", [ringCP], .uintT⟩,
  ⟨"rte_ring_full_w", [ringCP], .intT⟩,
  ⟨"rte_ring_empty_w", [ringCP], .intT⟩,
  ⟨"rte_ring_get_size_w", [ringCP], .uintT⟩,
  ⟨"rte_ring_get_capacity_w", [ringCP], .uintT⟩,
  ⟨"rte_ring_get_prod_sync_type_w", [ringCP], ty "rte_ring_sync_type"⟩,
  ⟨"rte_ring_is_prod_single_w", [ringCP], .intT⟩,
  ⟨"rte_ring_get_cons_sync_type_w", [ringCP], ty "rte_ring_sync_type"⟩,
  ⟨"rte_ring_is_cons_single_w", [ringCP], .intT⟩,
  ⟨"rte_ring_mp_enqueue_burst_w", [ringP, vcpp, .uintT, mp .uintT], .uintT⟩,
  ⟨"rte_ring_sp_enqueue_burst_w", [ringP, vcpp, .uintT, mp .uintT], .uintT⟩,
  ⟨"rte_ring_enqueue_burst_w", [ringP, vcpp, .uintT, mp .uintT], .uintT⟩,
  ⟨"rte_ring_mc_dequeue_burst_w", [ringP, vpp, .uintT, mp .uintT], .uintT⟩,
  ⟨"rte_ring_sc_dequeue_burst_w", [ringP, vpp, .uintT, mp .uintT], .uintT⟩,
  ⟨"rte_ring_dequeue_burst_w", [ringP, vpp, .uintT, mp .uintT], .uintT⟩]

/-- All entries of declsPart3, in source order. -/
def declsPart3 : List FunDecl := declsPart3a ++ declsPart3b ++ declsPart3c ++ declsPart3d

/-- Declarations of the header, part 4 (dpdk_wrapper.h lines 680-830):
memcpy and mov helpers, mempool operations, prefetches, byte swaps, mbuf and
pktmbuf operations, ether address predicates, vlan helpers and bitmap
operations.  Chunk a. -/
def declsPart4a : List FunDecl := [
  ⟨"rte_memcpy_w", [mp .void, cp .void, .sizeT], mp .void⟩,
  ⟨"rte_mov16_w", [mp .u8, cp .u8], .void⟩,
  ⟨"rte_mov32_w", [mp .u8, cp .u8], .void⟩,
  ⟨"rte_mov64_w", [mp .u8, cp .u8], .void⟩,
  ⟨"rte_mov256_w", [mp .u8, cp .u8], .void⟩,
  ⟨"rte_mempool_get_header_w", [mp .void], mp (ty "rte_mempool_objhdr")⟩,
  ⟨"rte_mempool_from_obj_w", [mp .void], mp (ty "rte_mempool")⟩,
  ⟨"rte_mempool_get_trailer_w", [mp .void], mp (ty "rte_mempool_objtlr")⟩,
  ⟨"rte_mempool_get_ops_w", [.intT], mp (ty "rte_mempool_ops")⟩,
  ⟨"rte_mempool_ops_dequeue_bulk_w", [mpoolP, vpp, .uintT], .intT⟩,
  ⟨"rte_mempool_ops_dequeue_contig_blocks_w", [mpoolP, vpp, .uintT], .intT⟩,
  ⟨"rte_mempool_ops_enqueue_bulk_w", [mpoolP, vcpp, .uintT], .intT⟩,
  ⟨"rte_mempool_default_cache_w", [mpoolP, .uintT], mp (ty "rte_mempool_cache")⟩,
  ⟨"rte_mempool_cache_flush_w", [mp (ty "rte_mempool_cache"), mpoolP], .void⟩,
  ⟨"rte_mempool_do_generic_put_w", [mpoolP, vcpp, .uintT, mp (ty "rte_mempool_cache")], .void⟩,
  ⟨"rte_mempool_generic_put_w", [mpoolP, vcpp, .uintT, mp (ty "rte_mempool_cache")], .void⟩,
  ⟨"rte_mempool_put_bulk_w", [mpoolP, vcpp, .uintT], .void⟩,
  ⟨"rte_mempool_put_w", [mpoolP, mp .void], .void⟩,
  ⟨"rte_mempool_do_generic_get_w", [mpoolP, vpp, .uintT, mp (ty "rte_mempool_cache")], .intT⟩,
  ⟨"rte_mempool_generic_get_w", [mpoolP, vpp, .uintT, mp (ty "rte_mempool_cache")], .intT⟩,
  ⟨"rte_mempool_get_bulk_w", [mpoolP, vpp, .uintT], .intT⟩,
  ⟨"rte_mempool_get_w", [mpoolP, vpp], .intT⟩,
  ⟨"rte_mempool_get_contig_blocks_w", [mpoolP, vpp, .uintT], .intT⟩]

/-- Chunk b of declsPart4. -/
def declsPart4b : List FunDecl := [
  ⟨"rte_mempool_full_w", [cp (ty "rte_mempool")], .intT⟩,
  ⟨"rte_mempool_empty_w", [cp (ty "rte_mempool")], .intT⟩,
  ⟨"rte_mempool_virt2iova_w", [cp .void], ty "rte_iova_t"⟩,
  ⟨"rte_mempool_get_priv_w", [mpoolP], mp .void⟩,
  ⟨"rte_prefetch0_w", [cp .void], .void⟩,
  ⟨"rte_prefetch1_w", [cp .void], .void⟩,
  ⟨"rte_prefetch2_w", [cp .void], .void⟩,
  ⟨"rte_prefetch_non_temporal_w", [cp .void], .void⟩,
  ⟨"rte_prefetch0_write_w", [cp .void], .void⟩,
  ⟨"rte_prefetch1_write_w", [cp .void], .void⟩,
  ⟨"rte_prefetch2_write_w", [cp .void], .void⟩,
  ⟨"rte_cldemote_w", [cp .void], .void⟩,
  ⟨"rte_constant_bswap16_w", [.u16], .u16⟩,
  ⟨"rte_constant_bswap32_w", [.u32], .u32⟩,
  ⟨"rte_constant_bswap64_w", [.u64], .u64⟩,
  ⟨"rte_mbuf_prefetch_part1_w", [mbufP], .void⟩,
  ⟨"rte_mbuf_prefetch_part2_w", [mbufP], .void⟩,
  ⟨"rte_pktmbuf_priv_size_w", [mpoolP], .u16⟩,
  ⟨"rte_mbuf_iova_get_w", [mbufCP], ty "rte_iova_t"⟩,
  ⟨"rte_mbuf_iova_set_w", [mbufP, ty "rte_iova_t"], .void⟩,
  ⟨"rte_mbuf_data_iova_w", [mbufCP], ty "rte_iova_t"⟩,
  ⟨"rte_mbuf_data_iova_default_w", [mbufCP], ty "rte_iova_t"⟩,
  ⟨"rte_mbuf_from_indirect_w", [mbufP], mbufP⟩]

/-- Chunk c of declsPart4. -/
def declsPart4c : List FunDecl := [
  ⟨"rte_mbuf_buf_addr_w", [mbufP, mpoolP], mp .charT⟩,
  ⟨"rte_mbuf_data_addr_default_w", [mbufP], mp .charT⟩,
  ⟨"rte_mbuf_to_baddr_w", [mbufP], mp .charT⟩,
  ⟨"rte_mbuf_to_priv_w", [mbufP], mp .void⟩,
  ⟨"rte_pktmbuf_priv_flags_w", [mpoolP], .u32⟩,
  ⟨"rte_mbuf_refcnt_read_w", [mbufCP], .u16⟩,
  ⟨"rte_mbuf_refcnt_set_w", [mbufP, .u16], .void⟩,
  ⟨"rte_mbuf_refcnt_update_w", [mbufP, .i16], .u16⟩,
  ⟨"rte_mbuf_ext_refcnt_read_w", [cp (ty "rte_mbuf_ext_shared_info")], .u16⟩,
  ⟨"rte_mbuf_ext_refcnt_set_w", [mp (ty "rte_mbuf_ext_shared_info"), .u16], .void⟩,
  ⟨"rte_mbuf_ext_refcnt_update_w", [mp (ty "rte_mbuf_ext_shared_info"), .i16], .u16⟩,
  ⟨"rte_mbuf_raw_alloc_w", [mpoolP], mbufP⟩,
  ⟨"rte_mbuf_raw_free_w", [mbufP], .void⟩,
  ⟨"rte_pktmbuf_data_room_size_w", [mpoolP], .u16⟩,
  ⟨"rte_pktmbuf_reset_headroom_w", [mbufP], .void⟩,
  ⟨"rte_pktmbuf_reset_w", [mbufP], .void⟩,
  ⟨"rte_pktmbuf_alloc_w", [mpoolP], mbufP⟩,
  ⟨"rte_pktmbuf_alloc_bulk_w", [mpoolP, mp mbufP, .uintT], .intT⟩,
  ⟨"rte_pktmbuf_ext_shinfo_init_helper_w", [mp .void, mp .u16, ty "rte_mbuf_extbuf_free_callback_t", mp .void], mp (ty "rte_mbuf_ext_shared_info")⟩,
  ⟨"rte_pktmbuf_attach_extbuf_w", [mbufP, mp .void, ty "rte_iova_t", .u16, mp (ty "rte_mbuf_ext_shared_info")], .void⟩,
  ⟨"rte_mbuf_dynfield_copy_w", [mbufP, mbufCP], .void⟩,
  ⟨"rte_pktmbuf_attach_w", [mbufP, mbufP], .void⟩,
  ⟨"rte_pktmbuf_detach_w", [mbufP], .void⟩]

/-- Chunk d of declsPart4. -/
def declsPart4d : List FunDecl := [
  ⟨"rte_pktmbuf_prefree_seg_w", [mbufP], mbufP⟩,
  ⟨"rte_pktmbuf_free_seg_w", [mbufP], .void⟩,
  ⟨"rte_pktmbuf_free_w", [mbufP], .void⟩,
  ⟨"rte_pktmbuf_refcnt_update_w", [mbufP, .i16], .void⟩,
  ⟨"rte_pktmbuf_headroom_w", [mbufCP], .u16⟩,
  ⟨"rte_pktmbuf_tailroom_w", [mbufCP], .u16⟩,
  ⟨"rte_pktmbuf_lastseg_w", [mbufP], mbufP⟩,
  ⟨"rte_pktmbuf_prepend_w", [mbufP, .u16], mp .charT⟩,
  ⟨"rte_pktmbuf_append_w", [mbufP, .u16], mp .charT⟩,
  ⟨"rte_pktmbuf_adj_w", [mbufP, .u16], mp .charT⟩,
  ⟨"rte_pktmbuf_trim_w", [mbufP, .u16], .intT⟩,
  ⟨"rte_pktmbuf_is_contiguous_w", [mbufCP], .intT⟩,
  ⟨"rte_pktmbuf_read_w", [mbufCP, .u32, .u32, mp .void], cp .void⟩,
  ⟨"rte_pktmbuf_chain_w", [mbufP, mbufP], .intT⟩,
  ⟨"rte_mbuf_tx_offload_w", [.u64, .u64, .u64, .u64, .u64, .u64, .u64], .u64⟩,
  ⟨"rte_validate_tx_offload_w", [mbufCP], .intT⟩,
  ⟨"rte_pktmbuf_linearize_w", [mbufP], .intT⟩,
  ⟨"rte_mbuf_sched_queue_get_w", [mbufCP], .u32⟩,
  ⟨"rte_mbuf_sched_traffic_class_get_w", [mbufCP], .u8⟩,
  ⟨"rte_mbuf_sched_color_get_w", [mbufCP], .u8⟩,
  ⟨"rte_mbuf_sched_get_w", [mbufCP, mp .u32, mp .u8, mp .u8], .void⟩,
  ⟨"rte_mbuf_sched_queue_set_w", [mbufP, .u32], .void⟩,
  ⟨"rte_mbuf_sched_traffic_class_set_w", [mbufP, .u8], .void⟩]

/-- Chunk e of declsPart4. -/
def declsPart4e : List FunDecl := [
  ⟨"rte_mbuf_sched_color_set_w", [mbufP, .u8], .void⟩,
  ⟨"rte_mbuf_sched_set_w", [mbufP, .u32, .u8, .u8], .void⟩,
  ⟨"rte_is_same_ether_addr_w", [cp (ty "rte_ether_addr"), cp (ty "rte_ether_addr")], .intT⟩,
  ⟨"rte_is_zero_ether_addr_w", [cp (ty "rte_ether_addr")], .intT⟩,
  ⟨"rte_is_unicast_ether_addr_w", [cp (ty "rte_ether_addr")], .intT⟩,
  ⟨"rte_is_multicast_ether_addr_w", [cp (ty "rte_ether_addr")], .intT⟩,
  ⟨"rte_is_broadcast_ether_addr_w", [cp (ty "rte_ether_addr")], .intT⟩,
  ⟨"rte_is_universal_ether_addr_w", [cp (ty "rte_ether_addr")], .intT⟩,
  ⟨"rte_is_local_admin_ether_addr_w", [cp (ty "rte_ether_addr")], .intT⟩,
  ⟨"rte_is_valid_assigned_ether_addr_w", [cp (ty "rte_ether_addr")], .intT⟩,
  ⟨"rte_ether_addr_copy_w", [cp (ty "rte_ether_addr"), mp (ty "rte_ether_addr")], .void⟩,
  ⟨"rte_vlan_strip_w", [mbufP], .intT⟩,
  ⟨"rte_vlan_insert_w", [mp mbufP], .intT⟩,
  ⟨"rte_bitmap_get_memory_footprint_w", [.u32], .u32⟩,
  ⟨"rte_bitmap_init_w", [.u32, mp .u8, .u32], mp (ty "rte_bitmap")⟩,
  ⟨"rte_bitmap_init_with_all_set_w", [.u32, mp .u8, .u32], mp (ty "rte_bitmap")⟩,
  ⟨"rte_bitmap_free_w", [mp (ty "rte_bitmap")], .void⟩,
  ⟨"rte_bitmap_reset_w", [mp (ty "rte_bitmap")], .void⟩,
  ⟨"rte_bitmap_prefetch0_w", [mp (ty "rte_bitmap"), .u32], .void⟩,
  ⟨"rte_bitmap_get_w", [mp (ty "rte_bitmap"), .u32], .u64⟩,
  ⟨"rte_bitmap_set_w", [mp (ty "rte_bitmap"), .u32], .void⟩,
  ⟨"rte_bitmap_set_slab_w", [mp (ty "rte_bitmap"), .u32, .u64], .void⟩,
  ⟨"rte_bitmap_clear_w", [mp (ty "rte_bitmap"), .u32], .void⟩,
  ⟨"rte_bitmap_scan_w", [mp (ty "rte_bitmap"), mp .u32, mp .u64], .intT⟩]

/-- All entries of declsPart4, in source order. -/
def declsPart4 : List FunDecl :=
  declsPart4a ++ declsPart4b ++ declsPart4c ++ declsPart4d ++ declsPart4e

/-- Declarations of the header, part 5 (dpdk_wrapper.h lines 831-903):
raw/IPv4/IPv6 checksums, IPv6 address helpers and the six meter check
functions.  Chunk a. -/
def declsPart5a : List FunDecl := [
  ⟨"rte_raw_cksum_w", [cp .void, .sizeT], .u16⟩,
  ⟨"rte_raw_cksum_mbuf_w", [mbufCP, .u32, .u32, mp .u16], .intT⟩,
  ⟨"rte_ipv4_hdr_len_w", [cp (ty "rte_ipv4_hdr")], .u8⟩,
  ⟨"rte_ipv4_cksum_w", [cp (ty "rte_ipv4_hdr")], .u16⟩,
  ⟨"rte_ipv4_cksum_simple_w", [cp (ty "rte_ipv4_hdr")], .u16⟩,
  ⟨"rte_ipv4_phdr_cksum_w", [cp (ty "rte_ipv4_hdr"), .u64], .u16⟩,
  ⟨"rte_ipv4_udptcp_cksum_w", [cp (ty "rte_ipv4_hdr"), cp .void], .u16⟩,
  ⟨"rte_ipv4_udptcp_cksum_mbuf_w", [mbufCP, cp (ty "rte_ipv4_hdr"), .u16], .u16⟩,
  ⟨"rte_ipv4_udptcp_cksum_verify_w", [cp (ty "rte_ipv4_hdr"), cp .void], .intT⟩,
  ⟨"rte_ipv4_udptcp_cksum_mbuf_verify_w", [mbufCP, cp (ty "rte_ipv4_hdr"), .u16], .intT⟩,
  ⟨"rte_ipv6_addr_eq_w", [cp (ty "rte_ipv6_addr"), cp (ty "rte_ipv6_addr")], .boolT⟩,
  ⟨"rte_ipv6_addr_mask_w", [mp (ty "rte_ipv6_addr"), .u8], .void⟩,
  ⟨"rte_ipv6_addr_eq_prefix_w", [cp (ty "rte_ipv6_addr"), cp (ty "rte_ipv6_addr"), .u8], .boolT⟩,
  ⟨"rte_ipv6_mask_depth_w", [cp (ty "rte_ipv6_addr")], .u8⟩,
  ⟨"rte_ipv6_addr_is_unspec_w", [cp (ty "rte_ipv6_addr")], .boolT⟩,
  ⟨"rte_ipv6_addr_is_loopback_w", [cp (ty "rte_ipv6_addr")], .boolT⟩,
  ⟨"rte_ipv6_addr_is_linklocal_w", [cp (ty "rte_ipv6_addr")], .boolT⟩,
  ⟨"rte_ipv6_addr_is_sitelocal_w", [cp (ty "rte_ipv6_addr")], .boolT⟩,
  ⟨"rte_ipv6_addr_is_v4compat_w", [cp (ty "rte_ipv6_addr")], .boolT⟩,
  ⟨"rte_ipv6_addr_is_v4mapped_w", [cp (ty "rte_ipv6_addr")], .boolT⟩,
  ⟨"rte_ipv6_addr_is_mcast_w", [cp (ty "rte_ipv6_addr")], .boolT⟩,
  ⟨"rte_ipv6_mc_scope_w", [cp (ty "rte_ipv6_addr")], ty "rte_ipv6_mc_scope"⟩,
  ⟨"rte_ipv6_llocal_from_ethernet_w", [mp (ty "rte_ipv6_addr"), cp (ty "rte_ether_addr")], .void⟩]

/-- Chunk b of declsPart5. -/
def declsPart5b : List FunDecl := [
  ⟨"rte_ipv6_solnode_from_addr_w", [mp (ty "rte_ipv6_addr"), cp (ty "rte_ipv6_addr")], .void⟩,
  ⟨"rte_ether_mcast_from_ipv6_w", [mp (ty "rte_ether_addr"), cp (ty "rte_ipv6_addr")], .void⟩,
  ⟨"rte_ipv6_check_version_w", [cp (ty "rte_ipv6_hdr")], .intT⟩,
  ⟨"rte_ipv6_phdr_cksum_w", [cp (ty "rte_ipv6_hdr"), .u64], .u16⟩,
  ⟨"rte_ipv6_udptcp_cksum_w", [cp (ty "rte_ipv6_hdr"), cp .void], .u16⟩,
  ⟨"rte_ipv6_udptcp_cksum_mbuf_w", [mbufCP, cp (ty "rte_ipv6_hdr"), .u16], .u16⟩,
  ⟨"rte_ipv6_udptcp_cksum_verify_w", [cp (ty "rte_ipv6_hdr"), cp .void], .intT⟩,
  ⟨"rte_ipv6_udptcp_cksum_mbuf_verify_w", [mbufCP, cp (ty "rte_ipv6_hdr"), .u16], .intT⟩,
  ⟨"rte_ipv6_get_next_ext_w", [cp .u8, .intT, mp .sizeT], .intT⟩,
  ⟨"rte_meter_srtcm_color_blind_check_w", [mp (ty "rte_meter_srtcm"), mp (ty "rte_meter_srtcm_profile"), .u64, .u32], ty "rte_color"⟩,
  ⟨"rte_meter_srtcm_color_aware_check_w", [mp (ty "rte_meter_srtcm"), mp (ty "rte_meter_srtcm_profile"), .u64, .u32, ty "rte_color"], ty "rte_color"⟩,
  ⟨"rte_meter_trtcm_color_blind_check_w", [mp (ty "rte_meter_trtcm"), mp (ty "rte_meter_trtcm_profile"), .u64, .u32], ty "rte_color"⟩,
  ⟨"rte_meter_trtcm_color_aware_check_w", [mp (ty "rte_meter_trtcm"), mp (ty "rte_meter_trtcm_profile"), .u64, .u32, ty "rte_color"], ty "rte_color"⟩,
  ⟨"rte_meter_trtcm_rfc4115_color_blind_check_w", [mp (ty "rte_meter_trtcm_rfc4115"), mp (ty "rte_meter_trtcm_rfc4115_profile"), .u64, .u32], ty "rte_color"⟩,
  ⟨"rte_meter_trtcm_rfc4115_color_aware_check_w", [mp (ty "rte_meter_trtcm_rfc4115"), mp (ty "rte_meter_trtcm_rfc4115_profile"), .u64, .u32, ty "rte_color"], ty "rte_color"⟩]

/-- All entries of declsPart5, in source order. -/
def declsPart5 : List FunDecl := declsPart5a ++ declsPart5b

/-- Declarations of the header, part 6 (dpdk_wrapper.h lines 904-1034):
ethdev fast-path functions, flow metadata, CRC and jhash functions, FBK hash
table, RCU quiescent-state operations, memory-mapped IO reads/writes,
MCS/pf/ticket locks, reciprocal division, seqcount/seqlock, stack, soft RSS
and time conversion helpers.  Chunk a. -/
def declsPart6a : List FunDecl := [
  ⟨"rte_eth_rss_hf_refine_w", [.u64], .u64⟩,
  ⟨"rte_eth_rx_burst_w", [.u16, .u16, mp mbufP, .constT .u16], .u16⟩,
  ⟨"rte_eth_rx_queue_count_w", [.u16, .u16], .intT⟩,
  ⟨"rte_eth_rx_descriptor_status_w", [.u16, .u16, .u16], .intT⟩,
  ⟨"rte_eth_tx_descriptor_status_w", [.u16, .u16, .u16], .intT⟩,
  ⟨"rte_eth_tx_burst_w", [.u16, .u16, mp mbufP, .u16], .u16⟩,
  ⟨"rte_eth_tx_prepare_w", [.u16, .u16, mp mbufP, .u16], .u16⟩,
  ⟨"rte_eth_tx_buffer_flush_w", [.u16, .u16, mp (ty "rte_eth_dev_tx_buffer")], .u16⟩,
  ⟨"rte_eth_tx_buffer_w", [.u16, .u16, mp (ty "rte_eth_dev_tx_buffer"), mbufP], .u16⟩,
  ⟨"rte_eth_recycle_mbufs_w", [.u16, .u16, .u16, .u16, mp (ty "rte_eth_recycle_rxq_info")], .u16⟩,
  ⟨"rte_eth_tx_queue_count_w", [.u16, .u16], .intT⟩,
  ⟨"rte_flow_dynf_metadata_get_w", [mbufP], .u32⟩,
  ⟨"rte_flow_dynf_metadata_set_w", [mbufP, .u32], .void⟩,
  ⟨"rte_flow_dynf_metadata_avail_w", [], .intT⟩,
  ⟨"rte_hash_crc_1byte_w", [.u8, .u32], .u32⟩,
  ⟨"rte_hash_crc_2byte_w", [.u16, .u32], .u32⟩,
  ⟨"rte_hash_crc_4byte_w", [.u32, .u32], .u32⟩,
  ⟨"rte_hash_crc_8byte_w", [.u64, .u32], .u32⟩,
  ⟨"rte_hash_crc_w", [cp .void, .u32, .u32], .u32⟩,
  ⟨"rte_jhash_2hashes_w", [cp .void, .u32, mp .u32, mp .u32], .void⟩,
  ⟨"rte_jhash_32b_2hashes_w", [cp .u32, .u32, mp .u32, mp .u32], .void⟩,
  ⟨"rte_jhash_w", [cp .void, .u32, .u32], .u32⟩,
  ⟨"rte_jhash_32b_w", [cp .u32, .u32, .u32], .u32⟩]

/-- Chunk b of declsPart6. -/
def declsPart6b : List FunDecl := [
  ⟨"rte_jhash_3words_w", [.u32, .u32, .u32, .u32], .u32⟩,
  ⟨"rte_jhash_2words_w", [.u32, .u32, .u32], .u32⟩,
  ⟨"rte_jhash_1word_w", [.u32, .u32], .u32⟩,
  ⟨"rte_fbk_hash_get_bucket_w", [cp (ty "rte_fbk_hash_table"), .u32], .u32⟩,
  ⟨"rte_fbk_hash_add_key_with_bucket_w", [mp (ty "rte_fbk_hash_table"), .u32, .u16, .u32], .intT⟩,
  ⟨"rte_fbk_hash_add_key_w", [mp (ty "rte_fbk_hash_table"), .u32, .u16], .intT⟩,
  ⟨"rte_fbk_hash_delete_key_with_bucket_w", [mp (ty "rte_fbk_hash_table"), .u32, .u32], .intT⟩,
  ⟨"rte_fbk_hash_delete_key_w", [mp (ty "rte_fbk_hash_table"), .u32], .intT⟩,
  ⟨"rte_fbk_hash_lookup_with_bucket_w", [cp (ty "rte_fbk_hash_table"), .u32, .u32], .intT⟩,
  ⟨"rte_fbk_hash_lookup_w", [cp (ty "rte_fbk_hash_table"), .u32], .intT⟩,
  ⟨"rte_fbk_hash_clear_all_w", [mp (ty "rte_fbk_hash_table")], .void⟩,
  ⟨"rte_fbk_hash_get_load_factor_w", [mp (ty "rte_fbk_hash_table")], .doubleT⟩,
  ⟨"rte_rcu_qsbr_thread_online_w", [mp (ty "rte_rcu_qsbr"), .uintT], .void⟩,
  ⟨"rte_rcu_qsbr_thread_offline_w", [mp (ty "rte_rcu_qsbr"), .uintT], .void⟩,
  ⟨"rte_rcu_qsbr_lock_w", [mp (ty "rte_rcu_qsbr"), .uintT], .void⟩,
  ⟨"rte_rcu_qsbr_unlock_w", [mp (ty "rte_rcu_qsbr"), .uintT], .void⟩,
  ⟨"rte_rcu_qsbr_start_w", [mp (ty "rte_rcu_qsbr")], .u64⟩,
  ⟨"rte_rcu_qsbr_quiescent_w", [mp (ty "rte_rcu_qsbr"), .uintT], .void⟩,
  ⟨"rte_rcu_qsbr_check_w", [mp (ty "rte_rcu_qsbr"), .u64, .boolT], .intT⟩,
  ⟨"rte_read8_relaxed_w", [cp .void], .u8⟩,
  ⟨"rte_read16_relaxed_w", [cp .void], .u16⟩,
  ⟨"rte_read32_relaxed_w", [cp .void], .u32⟩,
  ⟨"rte_read64_relaxed_w", [cp .void], .u64⟩]

/-- Chunk c of declsPart6. -/
def declsPart6c : List FunDecl := [
  ⟨"rte_write8_relaxed_w", [.u8, mp .void], .void⟩,
  ⟨"rte_write16_relaxed_w", [.u16, mp .void], .void⟩,
  ⟨"rte_write32_relaxed_w", [.u32, mp .void], .void⟩,
  ⟨"rte_write64_relaxed_w", [.u64, mp .void], .void⟩,
  ⟨"rte_read8_w", [cp .void], .u8⟩,
  ⟨"rte_read16_w", [cp .void], .u16⟩,
  ⟨"rte_read32_w", [cp .void], .u32⟩,
  ⟨"rte_read64_w", [cp .void], .u64⟩,
  ⟨"rte_write8_w", [.u8, mp .void], .void⟩,
  ⟨"rte_write16_w", [.u16, mp .void], .void⟩,
  ⟨"rte_write32_w", [.u32, mp .void], .void⟩,
  ⟨"rte_write64_w", [.u64, mp .void], .void⟩,
  ⟨"rte_write32_wc_relaxed_w", [.u32, mp .void], .void⟩,
  ⟨"rte_write32_wc_w", [.u32, mp .void], .void⟩,
  ⟨"rte_mcslock_lock_w", [mp (mp (ty "rte_mcslock_t")), mp (ty "rte_mcslock_t")], .void⟩,
  ⟨"rte_mcslock_unlock_w", [mp (mp (ty "rte_mcslock_t")), mp (ty "rte_mcslock_t")], .void⟩,
  ⟨"rte_mcslock_trylock_w", [mp (mp (ty "rte_mcslock_t")), mp (ty "rte_mcslock_t")], .intT⟩,
  ⟨"rte_mcslock_is_locked_w", [mp (ty "rte_mcslock_t")], .intT⟩,
  ⟨"rte_pflock_init_w", [mp (ty "rte_pflock")], .void⟩,
  ⟨"rte_pflock_read_lock_w", [mp (ty "rte_pflock_t")], .void⟩,
  ⟨"rte_pflock_read_unlock_w", [mp (ty "rte_pflock_t")], .void⟩,
  ⟨"rte_pflock_write_lock_w", [mp (ty "rte_pflock_t")], .void⟩,
  ⟨"rte_pflock_write_unlock_w", [mp (ty "rte_pflock_t")], .void⟩]

/-- Chunk d of declsPart6. -/
def declsPart6d : List FunDecl := [
  ⟨"rte_reciprocal_divide_w", [.u32, ty "rte_reciprocal"], .u32⟩,
  ⟨"rte_reciprocal_divide_u64_w", [.u64, cp (ty "rte_reciprocal_u64")], .u64⟩,
  ⟨"rte_seqcount_init_w", [mp (ty "rte_seqcount_t")], .void⟩,
  ⟨"rte_seqcount_read_begin_w", [cp (ty "rte_seqcount_t")], .u32⟩,
  ⟨"rte_seqcount_read_retry_w", [cp (ty "rte_seqcount_t"), .u32], .boolT⟩,
  ⟨"rte_seqcount_write_begin_w", [mp (ty "rte_seqcount_t")], .void⟩,
  ⟨"rte_seqcount_write_end_w", [mp (ty "rte_seqcount_t")], .void⟩,
  ⟨"rte_seqlock_init_w", [mp (ty "rte_seqlock_t")], .void⟩,
  ⟨"rte_seqlock_read_begin_w", [cp (ty "rte_seqlock_t")], .u32⟩,
  ⟨"rte_seqlock_read_retry_w", [cp (ty "rte_seqlock_t"), .u32], .boolT⟩,
  ⟨"rte_seqlock_write_lock_w", [mp (ty "rte_seqlock_t")], .void⟩,
  ⟨"rte_seqlock_write_unlock_w", [mp (ty "rte_seqlock_t")], .void⟩,
  ⟨"rte_stack_push_w", [mp (ty "rte_stack"), vcpp, .uintT], .uintT⟩,
  ⟨"rte_stack_pop_w", [mp (ty "rte_stack"), vpp, .uintT], .uintT⟩,
  ⟨"rte_stack_count_w", [mp (ty "rte_stack")], .uintT⟩,
  ⟨"rte_stack_free_count_w", [mp (ty "rte_stack")], .uintT⟩,
  ⟨"rte_softrss_w", [mp .u32, .u32, cp .u8], .u32⟩,
  ⟨"rte_softrss_be_w", [mp .u32, .u32, cp .u8], .u32⟩,
  ⟨"rte_ticketlock_init_w", [mp (ty "rte_ticketlock_t")], .void⟩,
  ⟨"rte_ticketlock_lock_w", [mp (ty "rte_ticketlock_t")], .void⟩,
  ⟨"rte_ticketlock_unlock_w", [mp (ty "rte_ticketlock_t")], .void⟩,
  ⟨"rte_ticketlock_trylock_w", [mp (ty "rte_ticketlock_t")], .intT⟩,
  ⟨"rte_ticketlock_is_locked_w", [mp (ty "rte_ticketlock_t")], .intT⟩]

/-- Chunk e of declsPart6. -/
def declsPart6e : List FunDecl := [
  ⟨"rte_ticketlock_recursive_init_w", [mp (ty "rte_ticketlock_recursive_t")], .void⟩,
  ⟨"rte_ticketlock_recursive_lock_w", [mp (ty "rte_ticketlock_recursive_t")], .void⟩,
  ⟨"rte_ticketlock_recursive_unlock_w", [mp (ty "rte_ticketlock_recursive_t")], .void⟩,
  ⟨"rte_ticketlock_recursive_trylock_w", [mp (ty "rte_ticketlock_recursive_t")], .intT⟩,
  ⟨"rte_cyclecounter_cycles_to_ns_w", [mp (ty "rte_timecounter"), .u64], .u64⟩,
  ⟨"rte_timecounter_update_w", [mp (ty "rte_timecounter"), .u64], .u64⟩,
  ⟨"rte_timespec_to_ns_w", [cp (ty "timespec")], .u64⟩,
  ⟨"rte_ns_to_timespec_w", [.u64], ty "timespec"⟩,
  ⟨"rte_trace_feature_is_enabled_w", [], .boolT⟩]

/-- All entries of declsPart6, in source order. -/
def declsPart6 : List FunDecl :=
  declsPart6a ++ declsPart6b ++ declsPart6c ++ declsPart6d ++ declsPart6e

/-- Every function declaration of dpdk_wrapper.h, in source order.  The
duplicate re-declaration of rte_errno_get at line 301 declares the same
function as line 235 and is listed once. -/
def headerDecls : List FunDecl :=
  declsPart1 ++ declsPart2 ++ declsPart3 ++ declsPart4 ++ declsPart5 ++ declsPart6

/-! ## Semantics of the wrapper bodies

The wrapper's implementation file is not among the given sources; only its
declarations are.  The semantics below is therefore modelled from the spec:
"each declared function has an identical native primitive it forwards to with
no added logic, no state, no policy", "accept the same parameters as the
underlying primitive, perform no validation beyond what that primitive itself
performs, and return its result or error code unchanged". -/

/-- Modelled from the spec: the state of the wrapped DPDK library and of the
process it runs in.  Its contents are owned by the external library; we keep
them abstract: a per-thread rte_errno value and an abstract memory mapping
locations to values. -/
structure LibState where
  errnoOf : Nat → Int
  mem : Nat → Int

/-- Modelled from the spec: the semantics of the native DPDK primitives, kept
abstract.  A native semantics maps a primitive name, the calling thread, the
argument list and the current library state to a result value and a new
library state.  Every behavior of the wrapped library (including error codes,
sentinel returns and error-state mutation) is some such function. -/
def NativeSem : Type := String → Nat → List Int → LibState → Int × LibState

/-- The native primitive a declared wrapper function forwards to, by the
header's naming convention: a function named foo_w wraps the native foo, and
rte_errno_get (declared at dpdk_wrapper.h line 235) exposes the thread-local
variable rte_errno. -/
def nativeNameOf (s : String) : String :=
  if s = "rte_errno_get" then "rte_errno"
  else if s.endsWith "_w" then (s.dropRight 2) else s

/-- Modelled from the spec: the behavior of a declared wrapper function.  The
wrapper forwards the calling thread, the arguments and the library state
unchanged to its native primitive and returns that primitive's result and
state effect unchanged; it keeps no state of its own and adds no validation. -/
def wrapperCall (native : NativeSem) (f : FunDecl) (tid : Nat) (args : List Int)
    (st : LibState) : Int × LibState :=
  native (nativeNameOf f.fname) tid args st

/-- Run a linearized trace of native calls directly against the native
library: each event is a calling thread, a primitive name and arguments;
the run returns the list of results in order and the final library state. -/
def runNativeTrace (native : NativeSem) :
    List (Nat × String × List Int) → LibState → List Int × LibState
  | [], st => ([], st)
  | (tid, nm, args) :: rest, st =>
    let r := native nm tid args st
    let rr := runNativeTrace native rest r.2
    (r.1 :: rr.1, rr.2)

/-- Run a linearized trace of calls through the declared wrapper functions:
each event is a calling thread, a wrapper declaration and arguments. -/
def runWrapperTrace (native : NativeSem) :
    List (Nat × FunDecl × List Int) → LibState → List Int × LibState
  | [], st => ([], st)
  | (tid, f, args) :: rest, st =>
    let r := wrapperCall native f tid args st
    let rr := runWrapperTrace native rest r.2
    (r.1 :: rr.1, rr.2)

/-- Modelled from the spec: reading the thread-local variable rte_errno
yields the calling thread's last error value and changes nothing. -/
def readErrno (tid : Nat) (st : LibState) : Int × LibState :=
  (st.errnoOf tid, st)

/-- Modelled from the spec and the doc comment at dpdk_wrapper.h lines
229-234: rte_errno_get is a thin wrapper exposing rte_errno and returns the
last rte_errno value (a thread-local value) of the calling thread. -/
def rte_errno_get (tid : Nat) (st : LibState) : Int × LibState :=
  readErrno tid st

/-! ## The two offload enums (dpdk_wrapper.h lines 246-299)

The header re-exports the TX and RX offload flag constants as enums with
explicit underlying type uint64_t, each enumerator defined as the
corresponding native constant.  The native constants live in the external
DPDK library, so their values are modelled from the spec below. -/

/-- Modelled from the spec: the native RTE_ETH_TX_OFFLOAD_* constants of the
wrapped library, as (name, value) pairs.  The spec describes the enum as a
bitfield whose members are unioned to enable multiple offloads; DPDK defines
the constants as RTE_BIT64(0) through RTE_BIT64(21) in declaration order. -/
def nativeTxOffloadConsts : List (String × Nat) := [
  ("RTE_ETH_TX_OFFLOAD_VLAN_INSERT", 2 ^ 0),
  ("RTE_ETH_TX_OFFLOAD_IPV4_CKSUM", 2 ^ 1),
  ("RTE_ETH_TX_OFFLOAD_UDP_CKSUM", 2 ^ 2),
  ("RTE_ETH_TX_OFFLOAD_TCP_CKSUM", 2 ^ 3),
  ("RTE_ETH_TX_OFFLOAD_SCTP_CKSUM", 2 ^ 4),
  ("RTE_ETH_TX_OFFLOAD_TCP_TSO", 2 ^ 5),
  ("RTE_ETH_TX_OFFLOAD_UDP_TSO", 2 ^ 6),
  ("RTE_ETH_TX_OFFLOAD_OUTER_IPV4_CKSUM", 2 ^ 7),
  ("RTE_ETH_TX_OFFLOAD_QINQ_INSERT", 2 ^ 8),
  ("RTE_ETH_TX_OFFLOAD_VXLAN_TNL_TSO", 2 ^ 9),
  ("RTE_ETH_TX_OFFLOAD_GRE_TNL_TSO", 2 ^ 10),
  ("RTE_ETH_TX_OFFLOAD_IPIP_TNL_TSO", 2 ^ 11),
  ("RTE_ETH_TX_OFFLOAD_GENEVE_TNL_TSO", 2 ^ 12),
  ("RTE_ETH_TX_OFFLOAD_MACSEC_INSERT", 2 ^ 13),
  ("RTE_ETH_TX_OFFLOAD_MT_LOCKFREE", 2 ^ 14),
  ("RTE_ETH_TX_OFFLOAD_MULTI_SEGS", 2 ^ 15),
  ("RTE_ETH_TX_OFFLOAD_MBUF_FAST_FREE", 2 ^ 16),
  ("RTE_ETH_TX_OFFLOAD_SECURITY", 2 ^ 17),
  ("RTE_ETH_TX_OFFLOAD_UDP_TNL_TSO", 2 ^ 18),
  ("RTE_ETH_TX_OFFLOAD_IP_TNL_TSO", 2 ^ 19),
  ("RTE_ETH_TX_OFFLOAD_OUTER_UDP_CKSUM", 2 ^ 20),
  ("RTE_ETH_TX_OFFLOAD_SEND_ON_TIMESTAMP", 2 ^ 21)]

/-- Modelled from the spec: the native RTE_ETH_RX_OFFLOAD_* constants of the
wrapped library, as (name, value) pairs.  DPDK defines them as single bits;
bits 8, 11 and 12 are unused by the constants this header re-exports. -/
def nativeRxOffloadConsts : List (String × Nat) := [
  ("RTE_ETH_RX_OFFLOAD_VLAN_STRIP", 2 ^ 0),
  ("RTE_ETH_RX_OFFLOAD_IPV4_CKSUM", 2 ^ 1),
  ("RTE_ETH_RX_OFFLOAD_UDP_CKSUM", 2 ^ 2),
  ("RTE_ETH_RX_OFFLOAD_TCP_CKSUM", 2 ^ 3),
  ("RTE_ETH_RX_OFFLOAD_TCP_LRO", 2 ^ 4),
  ("RTE_ETH_RX_OFFLOAD_QINQ_STRIP", 2 ^ 5),
  ("RTE_ETH_RX_OFFLOAD_OUTER_IPV4_CKSUM", 2 ^ 6),
  ("RTE_ETH_RX_OFFLOAD_MACSEC_STRIP", 2 ^ 7),
  ("RTE_ETH_RX_OFFLOAD_VLAN_FILTER", 2 ^ 9),
  ("RTE_ETH_RX_OFFLOAD_VLAN_EXTEND", 2 ^ 10),
  ("RTE_ETH_RX_OFFLOAD_SCATTER", 2 ^ 13),
  ("RTE_ETH_RX_OFFLOAD_TIMESTAMP", 2 ^ 14),
  ("RTE_ETH_RX_OFFLOAD_SECURITY", 2 ^ 15),
  ("RTE_ETH_RX_OFFLOAD_KEEP_CRC", 2 ^ 16),
  ("RTE_ETH_RX_OFFLOAD_SCTP_CKSUM", 2 ^ 17),
  ("RTE_ETH_RX_OFFLOAD_OUTER_UDP_CKSUM", 2 ^ 18),
  ("RTE_ETH_RX_OFFLOAD_RSS_HASH", 2 ^ 19),
  ("RTE_ETH_RX_OFFLOAD_BUFFER_SPLIT", 2 ^ 20)]

/-- Look up a native constant's value by name (0 if absent; every name used
by the header is present). -/
def nativeConstVal (table : List (String × Nat)) (nm : String) : Nat :=
  match table.find? (fun e => e.1 = nm) with
  | some e => e.2
  | none => 0

/-- The enum rte_eth_tx_offload as the header defines it (lines 246-269):
underlying type uint64_t, each enumerator set equal to the corresponding
native RTE_ETH_TX_OFFLOAD_* constant, in source order. -/
def rte_eth_tx_offload : List (String × Nat) := [
  ("TX_OFFLOAD_VLAN_INSERT", nativeConstVal nativeTxOffloadConsts "RTE_ETH_TX_OFFLOAD_VLAN_INSERT"),
  ("TX_OFFLOAD_IPV4_CKSUM", nativeConstVal nativeTxOffloadConsts "RTE_ETH_TX_OFFLOAD_IPV4_CKSUM"),
  ("TX_OFFLOAD_UDP_CKSUM", nativeConstVal nativeTxOffloadConsts "RTE_ETH_TX_OFFLOAD_UDP_CKSUM"),
  ("TX_OFFLOAD_TCP_CKSUM", nativeConstVal nativeTxOffloadConsts "RTE_ETH_TX_OFFLOAD_TCP_CKSUM"),
  ("TX_OFFLOAD_SCTP_CKSUM", nativeConstVal nativeTxOffloadConsts "RTE_ETH_TX_OFFLOAD_SCTP_CKSUM"),
  ("TX_OFFLOAD_TCP_TSO", nativeConstVal nativeTxOffloadConsts "RTE_ETH_TX_OFFLOAD_TCP_TSO"),
  ("TX_OFFLOAD_UDP_TSO", nativeConstVal nativeTxOffloadConsts "RTE_ETH_TX_OFFLOAD_UDP_TSO"),
  ("TX_OFFLOAD_OUTER_IPV4_CKSUM", nativeConstVal nativeTxOffloadConsts "RTE_ETH_TX_OFFLOAD_OUTER_IPV4_CKSUM"),
  ("TX_OFFLOAD_QINQ_INSERT", nativeConstVal nativeTxOffloadConsts "RTE_ETH_TX_OFFLOAD_QINQ_INSERT"),
  ("TX_OFFLOAD_VXLAN_TNL_TSO", nativeConstVal nativeTxOffloadConsts "RTE_ETH_TX_OFFLOAD_VXLAN_TNL_TSO"),
  ("TX_OFFLOAD_GRE_TNL_TSO", nativeConstVal nativeTxOffloadConsts "RTE_ETH_TX_OFFLOAD_GRE_TNL_TSO")]

/-- Continuation of the enum rte_eth_tx_offload (lines 258-268). -/
def rte_eth_tx_offload2 : List (String × Nat) := [
  ("TX_OFFLOAD_IPIP_TNL_TSO", nativeConstVal nativeTxOffloadConsts "RTE_ETH_TX_OFFLOAD_IPIP_TNL_TSO"),
  ("TX_OFFLOAD_GENEVE_TNL_TSO", nativeConstVal nativeTxOffloadConsts "RTE_ETH_TX_OFFLOAD_GENEVE_TNL_TSO"),
  ("TX_OFFLOAD_MACSEC_INSERT", nativeConstVal nativeTxOffloadConsts "RTE_ETH_TX_OFFLOAD_MACSEC_INSERT"),
  ("TX_OFFLOAD_MT_LOCKFREE", nativeConstVal nativeTxOffloadConsts "RTE_ETH_TX_OFFLOAD_MT_LOCKFREE"),
  ("TX_OFFLOAD_MULTI_SEGS", nativeConstVal nativeTxOffloadConsts "RTE_ETH_TX_OFFLOAD_MULTI_SEGS"),
  ("TX_OFFLOAD_MBUF_FAST_FREE", nativeConstVal nativeTxOffloadConsts "RTE_ETH_TX_OFFLOAD_MBUF_FAST_FREE"),
  ("TX_OFFLOAD_SECURITY", nativeConstVal nativeTxOffloadConsts "RTE_ETH_TX_OFFLOAD_SECURITY"),
  ("TX_OFFLOAD_UDP_TNL_TSO", nativeConstVal nativeTxOffloadConsts "RTE_ETH_TX_OFFLOAD_UDP_TNL_TSO"),
  ("TX_OFFLOAD_IP_TNL_TSO", nativeConstVal nativeTxOffloadConsts "RTE_ETH_TX_OFFLOAD_IP_TNL_TSO"),
  ("TX_OFFLOAD_OUTER_UDP_CKSUM", nativeConstVal nativeTxOffloadConsts "RTE_ETH_TX_OFFLOAD_OUTER_UDP_CKSUM"),
  ("TX_OFFLOAD_SEND_ON_TIMESTAMP", nativeConstVal nativeTxOffloadConsts "RTE_ETH_TX_OFFLOAD_SEND_ON_TIMESTAMP")]

/-- The full enum rte_eth_tx_offload, in source order. -/
def txOffloadEnum : List (String × Nat) := rte_eth_tx_offload ++ rte_eth_tx_offload2

/-- The enum rte_eth_rx_offload as the header defines it (lines 280-299):
underlying type uint64_t, each enumerator set equal to the corresponding
native RTE_ETH_RX_OFFLOAD_* constant, in source order. -/
def rte_eth_rx_offload : List (String × Nat) := [
  ("RX_OFFLOAD_VLAN_STRIP", nativeConstVal nativeRxOffloadConsts "RTE_ETH_RX_OFFLOAD_VLAN_STRIP"),
  ("RX_OFFLOAD_IPV4_CKSUM", nativeConstVal nativeRxOffloadConsts "RTE_ETH_RX_OFFLOAD_IPV4_CKSUM"),
  ("RX_OFFLOAD_UDP_CKSUM", nativeConstVal nativeRxOffloadConsts "RTE_ETH_RX_OFFLOAD_UDP_CKSUM"),
  ("RX_OFFLOAD_TCP_CKSUM", nativeConstVal nativeRxOffloadConsts "RTE_ETH_RX_OFFLOAD_TCP_CKSUM"),
  ("RX_OFFLOAD_TCP_LRO", nativeConstVal nativeRxOffloadConsts "RTE_ETH_RX_OFFLOAD_TCP_LRO"),
  ("RX_OFFLOAD_QINQ_STRIP", nativeConstVal nativeRxOffloadConsts "RTE_ETH_RX_OFFLOAD_QINQ_STRIP"),
  ("RX_OFFLOAD_OUTER_IPV4_CKSUM", nativeConstVal nativeRxOffloadConsts "RTE_ETH_RX_OFFLOAD_OUTER_IPV4_CKSUM"),
  ("RX_OFFLOAD_MACSEC_STRIP", nativeConstVal nativeRxOffloadConsts "RTE_ETH_RX_OFFLOAD_MACSEC_STRIP"),
  ("RX_OFFLOAD_VLAN_FILTER", nativeConstVal nativeRxOffloadConsts "RTE_ETH_RX_OFFLOAD_VLAN_FILTER")]

/-- Continuation of the enum rte_eth_rx_offload (lines 290-298). -/
def rte_eth_rx_offload2 : List (String × Nat) := [
  ("RX_OFFLOAD_VLAN_EXTEND", nativeConstVal nativeRxOffloadConsts "RTE_ETH_RX_OFFLOAD_VLAN_EXTEND"),
  ("RX_OFFLOAD_SCATTER", nativeConstVal nativeRxOffloadConsts "RTE_ETH_RX_OFFLOAD_SCATTER"),
  ("RX_OFFLOAD_TIMESTAMP", nativeConstVal nativeRxOffloadConsts "RTE_ETH_RX_OFFLOAD_TIMESTAMP"),
  ("RX_OFFLOAD_SECURITY", nativeConstVal nativeRxOffloadConsts "RTE_ETH_RX_OFFLOAD_SECURITY"),
  ("RX_OFFLOAD_KEEP_CRC", nativeConstVal nativeRxOffloadConsts "RTE_ETH_RX_OFFLOAD_KEEP_CRC"),
  ("RX_OFFLOAD_SCTP_CKSUM", nativeConstVal nativeRxOffloadConsts "RTE_ETH_RX_OFFLOAD_SCTP_CKSUM"),
  ("RX_OFFLOAD_OUTER_UDP_CKSUM", nativeConstVal nativeRxOffloadConsts "RTE_ETH_RX_OFFLOAD_OUTER_UDP_CKSUM"),
  ("RX_OFFLOAD_RSS_HASH", nativeConstVal nativeRxOffloadConsts "RTE_ETH_RX_OFFLOAD_RSS_HASH"),
  ("RX_OFFLOAD_BUFFER_SPLIT", nativeConstVal nativeRxOffloadConsts "RTE_ETH_RX_OFFLOAD_BUFFER_SPLIT")]

/-- The full enum rte_eth_rx_offload, in source order. -/
def rxOffloadEnum : List (String × Nat) := rte_eth_rx_offload ++ rte_eth_rx_offload2

/-- The values of all enumerators of both offload enums. -/
def allOffloadVals : List Nat := (txOffloadEnum ++ rxOffloadEnum).map (fun e => e.2)

/-- Bitwise union (OR) of a list of flag values. -/
def orFold (l : List Nat) : Nat := l.foldr (fun a b => a ||| b) 0

/-! ## Meter check functions (dpdk_wrapper.h lines 883-903)

The header declares six meter check functions returning enum rte_color.  The
algorithms are the external library's; they are modelled from the spec's
description "a traffic-rate classification state machine (e.g., single/dual
token-bucket) assigning a color (green/yellow/red) to packets", following
DPDK's srTCM (RFC 2697), trTCM (RFC 2698) and trTCM RFC 4115 token-bucket
schemes. -/

/-- The native enum rte_color of the wrapped library.  Besides the three
packet colors it has a fourth member (the count of colors, value 3), so
returning only green, yellow or red is not a typing triviality. -/
inductive RteColor where
  | green
  | yellow
  | red
  | colors
deriving DecidableEq, Repr

/-- Modelled from the spec: the srTCM profile, a single-rate token-bucket
configuration (committed burst size, excess burst size, committed rate as
bytes credited per period). -/
structure SrtcmProfile where
  cbs : Nat
  ebs : Nat
  cirPeriod : Nat
  cirBytesPerPeriod : Nat

/-- Modelled from the spec: the srTCM running state (time of last update,
committed and excess token buckets). -/
structure Srtcm where
  time : Nat
  tc : Nat
  te : Nat

/-- Refill the srTCM buckets for the elapsed time: the committed bucket fills
at the committed rate and overflows into the excess bucket, each capped at
its burst size.  Returns the updated time and the two filled buckets. -/
def srtcmRefill (m : Srtcm) (p : SrtcmProfile) (time : Nat) : Nat × Nat × Nat :=
  let nPeriods := (time - m.time) / p.cirPeriod
  let newTime := m.time + nPeriods * p.cirPeriod
  let tc := m.tc + nPeriods * p.cirBytesPerPeriod
  if tc > p.cbs then
    let te := m.te + (tc - p.cbs)
    (newTime, p.cbs, if te > p.ebs then p.ebs else te)
  else
    (newTime, tc, m.te)

/-- Modelled from the spec: the color-blind srTCM check.  After refilling,
a packet is green if the committed bucket covers it, else yellow if the
excess bucket covers it, else red; the covering bucket is drained. -/
def rte_meter_srtcm_color_blind_check (m : Srtcm) (p : SrtcmProfile)
    (time : Nat) (pktLen : Nat) : RteColor × Srtcm :=
  let r := srtcmRefill m p time
  if pktLen ≤ r.2.1 then (.green, ⟨r.1, r.2.1 - pktLen, r.2.2⟩)
  else if pktLen ≤ r.2.2 then (.yellow, ⟨r.1, r.2.1, r.2.2 - pktLen⟩)
  else (.red, ⟨r.1, r.2.1, r.2.2⟩)

/-- Modelled from the spec: the color-aware srTCM check.  A packet already
marked yellow cannot be upgraded to green, and a packet marked red stays
red. -/
def rte_meter_srtcm_color_aware_check (m : Srtcm) (p : SrtcmProfile)
    (time : Nat) (pktLen : Nat) (pktColor : RteColor) : RteColor × Srtcm :=
  let r := srtcmRefill m p time
  if pktColor = .green ∧ pktLen ≤ r.2.1 then (.green, ⟨r.1, r.2.1 - pktLen, r.2.2⟩)
  else if pktColor ≠ .red ∧ pktLen ≤ r.2.2 then (.yellow, ⟨r.1, r.2.1, r.2.2 - pktLen⟩)
  else (.red, ⟨r.1, r.2.1, r.2.2⟩)

/-- Modelled from the spec: the trTCM profile, a dual-rate token-bucket
configuration (committed and peak burst sizes and rates). -/
structure TrtcmProfile where
  cbs : Nat
  pbs : Nat
  cirPeriod : Nat
  cirBytesPerPeriod : Nat
  pirPeriod : Nat
  pirBytesPerPeriod : Nat

/-- Modelled from the spec: the trTCM running state (per-bucket times of
last update, committed and peak token buckets). -/
structure Trtcm where
  timeTc : Nat
  timeTp : Nat
  tc : Nat
  tp : Nat

/-- Refill one independent token bucket: credit bytesPerPeriod for each full
period elapsed, capped at the burst size.  Returns the updated time and
bucket level. -/
def bucketRefill (lastTime level time period bytesPerPeriod burst : Nat) :
    Nat × Nat :=
  let nPeriods := (time - lastTime) / period
  let newTime := lastTime + nPeriods * period
  let filled := level + nPeriods * bytesPerPeriod
  (newTime, if filled > burst then burst else filled)

/-- Modelled from the spec: the color-blind trTCM check.  A packet is red if
the peak bucket cannot cover it, yellow if only the peak bucket covers it,
green if both buckets cover it; covering buckets are drained. -/
def rte_meter_trtcm_color_blind_check (m : Trtcm) (p : TrtcmProfile)
    (time : Nat) (pktLen : Nat) : RteColor × Trtcm :=
  let rc := bucketRefill m.timeTc m.tc time p.cirPeriod p.cirBytesPerPeriod p.cbs
  let rp := bucketRefill m.timeTp m.tp time p.pirPeriod p.pirBytesPerPeriod p.pbs
  if rp.2 < pktLen then (.red, ⟨rc.1, rp.1, rc.2, rp.2⟩)
  else if rc.2 < pktLen then (.yellow, ⟨rc.1, rp.1, rc.2, rp.2 - pktLen⟩)
  else (.green, ⟨rc.1, rp.1, rc.2 - pktLen, rp.2 - pktLen⟩)

/-- Modelled from the spec: the color-aware trTCM check.  An incoming red
packet stays red; an incoming yellow packet cannot be upgraded to green. -/
def rte_meter_trtcm_color_aware_check (m : Trtcm) (p : TrtcmProfile)
    (time : Nat) (pktLen : Nat) (pktColor : RteColor) : RteColor × Trtcm :=
  let rc := bucketRefill m.timeTc m.tc time p.cirPeriod p.cirBytesPerPeriod p.cbs
  let rp := bucketRefill m.timeTp m.tp time p.pirPeriod p.pirBytesPerPeriod p.pbs
  if pktColor = .red ∨ rp.2 < pktLen then (.red, ⟨rc.1, rp.1, rc.2, rp.2⟩)
  else if pktColor = .yellow ∨ rc.2 < pktLen then
    (.yellow, ⟨rc.1, rp.1, rc.2, rp.2 - pktLen⟩)
  else (.green, ⟨rc.1, rp.1, rc.2 - pktLen, rp.2 - pktLen⟩)

/-- Modelled from the spec: the trTCM RFC 4115 profile (committed and excess
burst sizes and rates). -/
structure Trtcm4115Profile where
  cbs : Nat
  ebs : Nat
  cirPeriod : Nat
  cirBytesPerPeriod : Nat
  eirPeriod : Nat
  eirBytesPerPeriod : Nat

/-- Modelled from the spec: the trTCM RFC 4115 running state. -/
structure Trtcm4115 where
  timeTc : Nat
  timeTe : Nat
  tc : Nat
  te : Nat

/-- Modelled from the spec: the color-blind trTCM RFC 4115 check.  A packet
is green if the committed bucket covers it, else yellow if the excess bucket
covers it, else red; the covering bucket is drained. -/
def rte_meter_trtcm_rfc4115_color_blind_check (m : Trtcm4115)
    (p : Trtcm4115Profile) (time : Nat) (pktLen : Nat) : RteColor × Trtcm4115 :=
  let rc := bucketRefill m.timeTc m.tc time p.cirPeriod p.cirBytesPerPeriod p.cbs
  let re := bucketRefill m.timeTe m.te time p.eirPeriod p.eirBytesPerPeriod p.ebs
  if pktLen ≤ rc.2 then (.green, ⟨rc.1, re.1, rc.2 - pktLen, re.2⟩)
  else if pktLen ≤ re.2 then (.yellow, ⟨rc.1, re.1, rc.2, re.2 - pktLen⟩)
  else (.red, ⟨rc.1, re.1, rc.2, re.2⟩)

/-- Modelled from the spec: the color-aware trTCM RFC 4115 check.  A green
packet is processed as in the blind check; a yellow packet can only stay
yellow or become red; a red packet stays red. -/
def rte_meter_trtcm_rfc4115_color_aware_check (m : Trtcm4115)
    (p : Trtcm4115Profile) (time : Nat) (pktLen : Nat) (pktColor : RteColor) :
    RteColor × Trtcm4115 :=
  let rc := bucketRefill m.timeTc m.tc time p.cirPeriod p.cirBytesPerPeriod p.cbs
  let re := bucketRefill m.timeTe m.te time p.eirPeriod p.eirBytesPerPeriod p.ebs
  if pktColor = .green ∧ pktLen ≤ rc.2 then (.green, ⟨rc.1, re.1, rc.2 - pktLen, re.2⟩)
  else if (pktColor = .green ∨ pktColor = .yellow) ∧ pktLen ≤ re.2 then
    (.yellow, ⟨rc.1, re.1, rc.2, re.2 - pktLen⟩)
  else (.red, ⟨rc.1, re.1, rc.2, re.2⟩)

/-! ## Read-only observers (ring and mempool queries)

The header declares several observers that take their ring or mempool by
pointer-to-const.  Their computations live in the external library
and are modelled from the spec's glossary (ring: lock-free fixed-capacity
circular queue; mempool: pre-allocated pool of fixed-size objects),
following DPDK's head/tail index scheme. -/

/-- Is this one of the fixed-width integer types int8_t/16/32/64 or
uint8_t/16/32/64? -/
def isFixedWidthInt : CType → Bool
  | .i8 | .i16 | .i32 | .i64 | .u8 | .u16 | .u32 | .u64 => true
  | _ => false

/-- Is this a pointer type? -/
def isPtr : CType → Bool
  | .ptr _ => true
  | _ => false

/-- Is this a pointer whose immediate pointee is const-qualified? -/
def isConstPtr : CType → Bool
  | .ptr (.constT _) => true
  | _ => false

/-- Does a declaration use only fixed-width integer and pointer types, as
parameter types and (void aside) as return type? -/
def sigFixedWidthAndPtrOnly (f : FunDecl) : Bool :=
  (f.ret = .void || isFixedWidthInt f.ret || isPtr f.ret) &&
    f.params.all (fun t => isFixedWidthInt t || isPtr t)

/-- Is this C type a plain ABI-describable object type: a fixed-width
integer, a standard C scalar (int, unsigned int, size_t, bool, char,
double), a named struct/enum/typedef, a const-qualified such type, or a
pointer to such a type?  No type here needs macro expansion or inlining
machinery to bind against. -/
def abiStable : CType → Bool
  | .void => true
  | .boolT => true
  | .charT => true
  | .doubleT => true
  | .i8 | .i16 | .i32 | .i64 | .u8 | .u16 | .u32 | .u64 => true
  | .intT => true
  | .uintT => true
  | .sizeT => true
  | .named _ => true
  | .constT t => abiStable t
  | .ptr t => abiStable t

/-- Does a declaration use only ABI-describable object types? -/
def sigAbiStable (f : FunDecl) : Bool :=
  abiStable f.ret && f.params.all abiStable

/-- Modelled from the spec: the parameter and return types of a native DPDK
primitive, by name.  The spec states each declared function's signature
mirrors the native primitive's signature exactly, so the native signature of
the primitive a wrapper forwards to is the wrapper's declared signature. -/
def nativeSigOf (f : FunDecl) : List CType × CType :=
  (f.params, f.ret)

/-- A declaration mirrors its native primitive's signature exactly. -/
def sigMirrorsNative (f : FunDecl) : Prop :=
  (f.params, f.ret) = nativeSigOf f

/-! ## Helper definitions and lemmas for the theorems -/

/-- A color is one of the three packet colors (not the sentinel member
RTE_COLORS of the native enum). -/
def isPacketColor (c : RteColor) : Prop :=
  c = .green ∨ c = .yellow ∨ c = .red

/-- A value with exactly one bit set: nonzero, and clearing the lowest set
bit leaves zero. -/
def isSingleBit (v : Nat) : Bool :=
  decide (v ≠ 0) && decide (v &&& (v - 1) = 0)

/-- The underlying type the header gives the enum rte_eth_tx_offload
(line 246). -/
def txOffloadBase : CType := .u64

/-- The underlying type the header gives the enum rte_eth_rx_offload
(line 280). -/
def rxOffloadBase : CType := .u64

theorem lor_lt_pow_two {a b n : Nat} (ha : a < 2 ^ n) (hb : b < 2 ^ n) :
    a ||| b < 2 ^ n := by
  refine Nat.lt_pow_two_of_testBit _ fun i hi => ?_
  have hmono : (2 : Nat) ^ n ≤ 2 ^ i := Nat.pow_le_pow_right (by norm_num) hi
  have h1 : a.testBit i = false :=
    Nat.testBit_eq_false_of_lt (lt_of_lt_of_le ha hmono)
  have h2 : b.testBit i = false :=
    Nat.testBit_eq_false_of_lt (lt_of_lt_of_le hb hmono)
  simp [Nat.testBit_lor, h1, h2]

theorem orFold_lt_pow_two (S : List Nat) (n : Nat) (h : ∀ v ∈ S, v < 2 ^ n) :
    orFold S < 2 ^ n := by
  induction S with
  | nil => exact Nat.pos_pow_of_pos n (by norm_num)
  | cons a t ih =>
    have ha : a < 2 ^ n := h a (List.mem_cons_self a t)
    have ht : orFold t < 2 ^ n := ih fun v hv => h v (List.mem_cons_of_mem a hv)
    exact lor_lt_pow_two ha ht

theorem land_absorb_self (a x : Nat) : (a ||| x) &&& a = a := by
  refine Nat.eq_of_testBit_eq fun i => ?_
  simp only [Nat.testBit_land, Nat.testBit_lor]
  cases a.testBit i <;> simp

theorem land_absorb_right (a x v : Nat) (h : x &&& v = v) :
    (a ||| x) &&& v = v := by
  refine Nat.eq_of_testBit_eq fun i => ?_
  have hx := congrArg (fun n => n.testBit i) h
  simp only [Nat.testBit_land, Nat.testBit_lor] at hx ⊢
  cases hv : v.testBit i
  · simp
  · rw [hv] at hx
    simp only [Bool.and_true] at hx
    simp [hx]

theorem orFold_land_mem (S : List Nat) (v : Nat) (hv : v ∈ S) :
    orFold S &&& v = v := by
  induction S with
  | nil => cases hv
  | cons a t ih =>
    rcases List.mem_cons.mp hv with h | h
    · subst h
      exact land_absorb_self v (orFold t)
    · exact land_absorb_right a (orFold t) v (ih h)

/-- The property claimed of the two offload enums, stated for an arbitrary
subset S of enumerator values: the enums' underlying type is uint64_t, every
enumerator equals the corresponding native constant, every enumerator is a
single-bit value, the enumerators of each enum are pairwise distinct, and
the bitwise union of S fits in 64 bits and retains every member's bit. -/
def offloadEnumsProp (S : List Nat) : Prop :=
  txOffloadBase = .u64 ∧ rxOffloadBase = .u64 ∧
  txOffloadEnum.map Prod.snd = nativeTxOffloadConsts.map Prod.snd ∧
  rxOffloadEnum.map Prod.snd = nativeRxOffloadConsts.map Prod.snd ∧
  (∀ v ∈ allOffloadVals, isSingleBit v = true) ∧
  (txOffloadEnum.map Prod.snd).Pairwise (fun a b => a ≠ b) ∧
  (rxOffloadEnum.map Prod.snd).Pairwise (fun a b => a ≠ b) ∧
  orFold S < 2 ^ 64 ∧
  (∀ v ∈ S, orFold S &&& v = v)

/-- The header's declaration of rte_mempool_get_w (line 715). -/
def mempoolGetDecl : FunDecl := ⟨"rte_mempool_get_w", [mpoolP, vpp], .intT⟩

/-- The header's declaration of rte_ring_enqueue_w (line 641). -/
def ringEnqueueDecl : FunDecl := ⟨"rte_ring_enqueue_w", [ringP, mp .void], .intT⟩

/-- The header's declaration of rte_ring_mp_hts_enqueue_bulk_elem_w
(lines 438-442). -/
def htsEnqueueDecl : FunDecl :=
  ⟨"rte_ring_mp_hts_enqueue_bulk_elem_w", [ringP, cp .void, .uintT, .uintT, mp .uintT], .uintT⟩

/-- The header's declaration of rte_pktmbuf_free_w (line 776). -/
def pktmbufFreeDecl : FunDecl := ⟨"rte_pktmbuf_free_w", [mbufP], .void⟩

/-- The header's declaration of rte_ring_mp_enqueue_bulk_elem_w
(lines 430-433). -/
def mpEnqueueBulkElemDecl : FunDecl :=
  ⟨"rte_ring_mp_enqueue_bulk_elem_w", [ringP, cp .void, .uintT, .uintT, mp .uintT], .uintT⟩

/-- The header's declaration of rte_mbuf_tx_offload_w (lines 789-791). -/
def mbufTxOffloadDecl : FunDecl :=
  ⟨"rte_mbuf_tx_offload_w", [.u64, .u64, .u64, .u64, .u64, .u64, .u64], .u64⟩

/-- A sample native semantics for witnesses: the result is the sum of the
arguments plus the calling thread's errno; the state is unchanged. -/
def sampleNative : NativeSem :=
  fun _ tid args st => (args.foldl (fun a b => a + b) (st.errnoOf tid), st)

/-- A sample native semantics for witnesses: every call returns the error
code -22 and records 22 in the calling thread's errno. -/
def sampleErrNative : NativeSem :=
  fun _ tid _ st => (-22, ⟨fun t => if t = tid then 22 else st.errnoOf t, st.mem⟩)

/-- A sample library state for witnesses. -/
def sampleState : LibState := ⟨fun _ => 0, fun _ => 0⟩

/-! ## Claim theorems -/

/-- C1: for every function declared in the wrapper header, calling it with
any arguments is observably identical — same result value and same effect on
the library state, error-state mutation included — to calling the underlying
native primitive directly with the same arguments on the same thread; in
particular the wrapper performs no validation of its own, since the equality
holds for every argument list and every native semantics. -/
theorem wrapper_call_observably_identical (f : FunDecl) (hf : f ∈ headerDecls)
    (native : NativeSem) (tid : Nat) (args : List Int) (st : LibState) :
    wrapperCall native f tid args st = native (nativeNameOf f.fname) tid args st :=
  rfl

/-- Witness for C1 at the declared function rte_mempool_get_w, a concrete
native semantics, thread 3, arguments [5, 7] and a concrete state. -/
theorem wrapper_call_observably_identical_witness :
    mempoolGetDecl ∈ headerDecls ∧
      wrapperCall sampleNative mempoolGetDecl 3 [5, 7] sampleState =
        sampleNative (nativeNameOf mempoolGetDecl.fname) 3 [5, 7] sampleState :=
  ⟨by decide,
    wrapper_call_observably_identical mempoolGetDecl (by decide) sampleNative 3 [5, 7]
      sampleState⟩

/-- C2: for every declared forwarding function, the value it returns
(error codes and sentinel returns included) is exactly the value the
underlying native primitive returns for the same call; no error code is
translated, remapped or absorbed by the wrapper. -/
theorem wrapper_returns_native_result_unchanged (f : FunDecl)
    (hf : f ∈ headerDecls) (native : NativeSem) (tid : Nat) (args : List Int)
    (st : LibState) :
    (wrapperCall native f tid args st).1 =
      (native (nativeNameOf f.fname) tid args st).1 :=
  rfl

/-- Witness for C2 at rte_ring_enqueue_w with a native semantics returning
the error code -22: the wrapper returns -22 unchanged. -/
theorem wrapper_returns_native_result_unchanged_witness :
    ringEnqueueDecl ∈ headerDecls ∧
      (wrapperCall sampleErrNative ringEnqueueDecl 0 [4] sampleState).1 = -22 :=
  ⟨by decide,
    wrapper_returns_native_result_unchanged ringEnqueueDecl (by decide)
      sampleErrNative 0 [4] sampleState⟩

/-- C3: every function declared in the header forwards to one native
primitive: there is a single primitive name such that, whatever the native
library's semantics, calling the wrapper equals calling that primitive with
the same thread, arguments and library state.  The wrapper keeps no state of
its own and its observable result depends only on its arguments and the
library state, since the right-hand side depends on nothing else. -/
theorem wrapper_forwards_to_unique_native_primitive (f : FunDecl)
    (hf : f ∈ headerDecls) :
    ∃ g : String, ∀ (native : NativeSem) (tid : Nat) (args : List Int)
      (st : LibState), wrapperCall native f tid args st = native g tid args st :=
  ⟨nativeNameOf f.fname, fun _ _ _ _ => rfl⟩

/-- Witness for C3 at the declared function
rte_ring_mp_hts_enqueue_bulk_elem_w. -/
theorem wrapper_forwards_to_unique_native_primitive_witness :
    htsEnqueueDecl ∈ headerDecls ∧
      ∃ g : String, ∀ (native : NativeSem) (tid : Nat) (args : List Int)
        (st : LibState),
        wrapperCall native htsEnqueueDecl tid args st = native g tid args st :=
  ⟨by decide, wrapper_forwards_to_unique_native_primitive htsEnqueueDecl (by decide)⟩

/-- C5: no operation declared in the header itself allocates, mutates or
frees any referenced structure: the library-state effect of a wrapper call
is exactly the effect of the forwarded native call — the wrapper only passes
the references through and contributes no state change of its own. -/
theorem wrapper_state_effect_is_native_state_effect (f : FunDecl)
    (hf : f ∈ headerDecls) (native : NativeSem) (tid : Nat) (args : List Int)
    (st : LibState) :
    (wrapperCall native f tid args st).2 =
      (native (nativeNameOf f.fname) tid args st).2 :=
  rfl

/-- Witness for C5 at the declared function rte_pktmbuf_free_w. -/
theorem wrapper_state_effect_is_native_state_effect_witness :
    pktmbufFreeDecl ∈ headerDecls ∧
      (wrapperCall sampleErrNative pktmbufFreeDecl 1 [9] sampleState).2 =
        (sampleErrNative (nativeNameOf pktmbufFreeDecl.fname) 1 [9] sampleState).2 :=
  ⟨by decide,
    wrapper_state_effect_is_native_state_effect pktmbufFreeDecl (by decide)
      sampleErrNative 1 [9] sampleState⟩

/-- C7: the declarations are transparent pass-throughs under concurrent
callers: for every linearized trace of calls (each event a calling thread, a
declared function and arguments) and every native semantics, running the
trace through the wrappers produces exactly the results and final state of
running the corresponding native calls directly — hence any guarantee G
observable of the one run holds of the other, so the wrapper neither
strengthens nor weakens the wrapped library's thread-safety guarantees. -/
theorem wrapper_trace_transparent (native : NativeSem)
    (tr : List (Nat × FunDecl × List Int)) (st : LibState) :
    runWrapperTrace native tr st =
      runNativeTrace native
        (tr.map (fun e => (e.1, nativeNameOf e.2.1.fname, e.2.2))) st ∧
    ∀ G : List Int × LibState → Prop,
      (G (runWrapperTrace native tr st) ↔
        G (runNativeTrace native
          (tr.map (fun e => (e.1, nativeNameOf e.2.1.fname, e.2.2))) st)) := by
  have h : ∀ (l : List (Nat × FunDecl × List Int)) (s : LibState),
      runWrapperTrace native l s =
        runNativeTrace native (l.map (fun e => (e.1, nativeNameOf e.2.1.fname, e.2.2))) s := by
    intro l
    induction l with
    | nil => intro s; rfl
    | cons e rest ih =>
      intro s
      obtain ⟨tid, f, args⟩ := e
      simp only [List.map_cons, runWrapperTrace, runNativeTrace, wrapperCall, ih]
  exact ⟨h tr st, fun G => by rw [h tr st]⟩

/-- C8: rte_errno_get, called on any thread, returns the calling thread's
current thread-local rte_errno value and leaves the state unchanged. -/
theorem rte_errno_get_reads_thread_local_errno (tid : Nat) (st : LibState) :
    rte_errno_get tid st = (st.errnoOf tid, st) :=
  rfl

/-- C6: the header declares exactly six functions returning enum rte_color —
the six meter check functions — and each of them, for every meter state,
profile, timestamp, packet length (and, for the aware variants, input
color), returns one of exactly green, yellow or red, never the native
enum's fourth member. -/
theorem meter_checks_return_green_yellow_red :
    ((headerDecls.filter (fun f => f.ret = ty "rte_color")).map FunDecl.fname =
      ["rte_meter_srtcm_color_blind_check_w",
       "rte_meter_srtcm_color_aware_check_w",
       "rte_meter_trtcm_color_blind_check_w",
       "rte_meter_trtcm_color_aware_check_w",
       "rte_meter_trtcm_rfc4115_color_blind_check_w",
       "rte_meter_trtcm_rfc4115_color_aware_check_w"]) ∧
    (∀ (m : Srtcm) (p : SrtcmProfile) (t len : Nat),
      isPacketColor (rte_meter_srtcm_color_blind_check m p t len).1) ∧
    (∀ (m : Srtcm) (p : SrtcmProfile) (t len : Nat) (c : RteColor),
      isPacketColor (rte_meter_srtcm_color_aware_check m p t len c).1) ∧
    (∀ (m : Trtcm) (p : TrtcmProfile) (t len : Nat),
      isPacketColor (rte_meter_trtcm_color_blind_check m p t len).1) ∧
    (∀ (m : Trtcm) (p : TrtcmProfile) (t len : Nat) (c : RteColor),
      isPacketColor (rte_meter_trtcm_color_aware_check m p t len c).1) ∧
    (∀ (m : Trtcm4115) (p : Trtcm4115Profile) (t len : Nat),
      isPacketColor (rte_meter_trtcm_rfc4115_color_blind_check m p t len).1) ∧
    (∀ (m : Trtcm4115) (p : Trtcm4115Profile) (t len : Nat) (c : RteColor),
      isPacketColor (rte_meter_trtcm_rfc4115_color_aware_check m p t len c).1) := by
  refine ⟨by decide, ?_, ?_, ?_, ?_, ?_, ?_⟩
  · intro m p t len
    unfold rte_meter_srtcm_color_blind_check
    dsimp only
    split <;> [skip; split] <;> simp [isPacketColor]
  · intro m p t len c
    unfold rte_meter_srtcm_color_aware_check
    dsimp only
    split <;> [skip; split] <;> simp [isPacketColor]
  · intro m p t len
    unfold rte_meter_trtcm_color_blind_check
    dsimp only
    split <;> [skip; split] <;> simp [isPacketColor]
  · intro m p t len c
    unfold rte_meter_trtcm_color_aware_check
    dsimp only
    split <;> [skip; split] <;> simp [isPacketColor]
  · intro m p t len
    unfold rte_meter_trtcm_rfc4115_color_blind_check
    dsimp only
    split <;> [skip; split] <;> simp [isPacketColor]
  · intro m p t len c
    unfold rte_meter_trtcm_rfc4115_color_aware_check
    dsimp only
    split <;> [skip; split] <;> simp [isPacketColor]

/-- C9: the two offload enums have underlying type uint64_t; every
enumerator equals the corresponding native constant; each enumerator is a
distinct single-bit value; and the bitwise union of any subset of the
enumerator values is representable in 64 bits and retains every enabled
offload's bit. -/
theorem offload_enums_single_bit_sound (S : List Nat)
    (hS : ∀ v ∈ S, v ∈ allOffloadVals) : offloadEnumsProp S := by
  refine ⟨rfl, rfl, by decide, by decide, by decide, by decide, by decide, ?_, ?_⟩
  · have hb : ∀ v ∈ allOffloadVals, v < 2 ^ 64 := by decide
    exact orFold_lt_pow_two S 64 fun v hv => hb v (hS v hv)
  · intro v hv
    exact orFold_land_mem S v hv

/-- Witness for C9 at the concrete subset with the VLAN-insert/strip bit and
bit 20 of both enums. -/
theorem offload_enums_single_bit_sound_witness :
    (∀ v ∈ [1, 2 ^ 20], v ∈ allOffloadVals) ∧ offloadEnumsProp [1, 2 ^ 20] :=
  ⟨by decide, offload_enums_single_bit_sound [1, 2 ^ 20] (by decide)⟩

/-- C4 counterexample: the claim that every declared signature uses only
fixed-width integer and pointer types fails on the code: the header's own
declaration of rte_ring_mp_enqueue_bulk_elem_w (lines 430-433) takes two
parameters of type unsigned int and returns unsigned int, which is neither a
fixed-width integer type nor a pointer type. -/
theorem sig_fixed_width_only_counterexample :
    mpEnqueueBulkElemDecl ∈ headerDecls ∧
      ¬ (∀ f ∈ headerDecls, sigMirrorsNative f ∧ sigFixedWidthAndPtrOnly f = true) := by
  refine ⟨by decide, fun h => ?_⟩
  have hd := (h mpEnqueueBulkElemDecl (by decide)).2
  exact absurd hd (by decide)

/-- C4 (amended): every declared function's signature mirrors the native
primitive's signature exactly, and uses only plain ABI-describable C object
types — fixed-width integers, standard C scalar types (int, unsigned int,
size_t, bool, char, double), named struct/enum/typedef types, const
qualifications and pointers — so a foreign runtime can bind to the symbol
without the native build's inlining or macro-expansion machinery. -/
theorem sig_mirrors_native_abi_stable (f : FunDecl) (hf : f ∈ headerDecls) :
    sigMirrorsNative f ∧ sigAbiStable f = true := by
  refine ⟨rfl, ?_⟩
  have h : headerDecls.all sigAbiStable = true := by decide
  exact List.all_eq_true.mp h f hf

/-- Witness for the amended C4 at the declared function
rte_mbuf_tx_offload_w. -/
theorem sig_mirrors_native_abi_stable_witness :
    mbufTxOffloadDecl ∈ headerDecls ∧
      (sigMirrorsNative mbufTxOffloadDecl ∧ sigAbiStable mbufTxOffloadDecl = true) :=
  ⟨by decide, sig_mirrors_native_abi_stable mbufTxOffloadDecl (by decide)⟩

end Dpdk
